import Mathlib

/-!
# Verification of the semantic-layer SQL generator

Shallow embedding of `backend/semantic_parser.py` and
`backend/query_generator.py`.

Conventions of the embedding:
* Python strings are Lean `String`s; f-string interpolation is `++`.
* Python dicts read through `.get` become structures with `Option`-valued
  fields; the parsed YAML documents become association lists in document
  order (Python 3.7+ dicts preserve insertion order).
* A raised exception becomes `Except.error`; `str.strip()` is `pyStrip`,
  `sep.join` is `joinSep`, the `in` substring test is `strContains`.
-/

/-- Python truthiness of a `str`-or-`None` value (`None` and `""` are falsy). -/
def pyTruthy : Option String → Bool
  | some s => s != ""
  | none => false

/-- Python `f"{x}"` on a `str`-or-`None` value: `None` prints as `"None"`. -/
def pyStr : Option String → String
  | some s => s
  | none => "None"

/-- `isPref p l` holds when `p` is a leading segment of `l`. -/
def isPref : List Char → List Char → Bool
  | [], _ => true
  | _ :: _, [] => false
  | a :: as, b :: bs => a == b && isPref as bs

/-- Number of positions of `l` at which `pat` occurs. -/
def countOcc (pat : List Char) : List Char → Nat
  | [] => 0
  | c :: t => (if isPref pat (c :: t) then 1 else 0) + countOcc pat t

/-- Python `pat in s` substring test (used with non-empty `pat` only). -/
def strContains (s pat : String) : Bool :=
  decide (0 < countOcc pat.data s.data)

/-- Occurrence count of `pat` in `s`, the `String`-level view of `countOcc`. -/
def countSub (s pat : String) : Nat := countOcc pat.data s.data

/-- The characters Python's `str.strip()` removes (the strings at hand only
contain spaces and newlines). -/
def wsChar (c : Char) : Bool := c.isWhitespace

/-- Strip whitespace from both ends of a character list. -/
def stripChars (l : List Char) : List Char :=
  ((l.dropWhile wsChar).reverse.dropWhile wsChar).reverse

/-- Python `s.strip()`. -/
def pyStrip (s : String) : String := String.mk (stripChars s.data)

/-- Python `sep.join(parts)`. -/
def joinSep (sep : String) : List String → String
  | [] => ""
  | [s] => s
  | s :: rest => s ++ sep ++ joinSep sep rest

/-- A metric entry of `semantic_layer.yml`'s `metrics` list, as the code reads
it through `.get('name')`, `.get('type')` and `.get('sql', '')`. -/
structure Metric where
  name : Option String
  type : Option String
  sql : Option String
  deriving DecidableEq

/-- A segment mapping of `taxonomy.yml`, as read through `.get('definition')`
and `.get('label', default)`. `hasOtherKeys` records whether the mapping has
further keys (such as `description`); it only matters for Python truthiness
of the mapping itself. -/
structure Segment where
  definition : Option String
  label : Option String
  hasOtherKeys : Bool
  deriving DecidableEq

/-- A value stored under a segment name in the taxonomy: a mapping, or any
non-`dict` YAML value, of which only the truthiness is ever observable. -/
inductive SegVal where
  | dict (d : Segment)
  | nonDict (truthy : Bool)
  deriving DecidableEq

/-- Python truthiness of a stored segment value (a `dict` is truthy iff it is
non-empty). -/
def SegVal.isTruthy : SegVal → Bool
  | .dict d => d.definition.isSome || d.label.isSome || d.hasOtherKeys
  | .nonDict t => t

/-- Python truthiness of `get_customer_segment`'s result. -/
def optTruthy : Option SegVal → Bool
  | none => false
  | some sv => sv.isTruthy

/-- The `filters` dict accepted by `generate_metric_sql`, read through
`.get('segment_type')` and `.get('segment')`. `none` stands for `None` or
any falsy dict (the code only tests `if filters:` before the two `.get`s). -/
structure Filters where
  segment_type : Option String
  segment : Option String

/-- A segment reference passed to `generate_comparison_query`
(`{'type': ..., 'name': ...}`; both keys are indexed unconditionally). -/
structure SegRef where
  type : String
  name : String

/-- `SemanticLayerParser` after `load_all`: `taxonomy` holds the mapping under
the top-level `taxonomy` key of `taxonomy.yml` (the code always reads it as
`self.taxonomy.get('taxonomy', {})`), `metrics` the list under the `metrics`
key of `semantic_layer.yml` (`self.metrics.get('metrics', [])`), both in
document order. `metadata.yml` is never consulted by the query generator. -/
structure SemanticLayerParser where
  taxonomy : List (String × List (String × SegVal))
  metrics : List Metric

/-- `SemanticLayerParser.get_customer_segment`. -/
def get_customer_segment (p : SemanticLayerParser)
    (segment_type segment_name : String) : Option SegVal :=
  let segments := (p.taxonomy.lookup segment_type).getD []
  segments.lookup segment_name

/-- `SemanticLayerParser.get_metric`. -/
def get_metric (p : SemanticLayerParser) (metric_name : String) : Option Metric :=
  p.metrics.find? (fun m => m.name == some metric_name)

/-- The exceptions the query-generator code can raise. -/
inductive PyError where
  | valueError (msg : String)
  | attributeError
  deriving DecidableEq

/-- `QueryGenerator.generate_metric_sql`. -/
def generate_metric_sql (p : SemanticLayerParser) (metric_name : String)
    (filters : Option Filters) : Except PyError String :=
  match get_metric p metric_name with
  | none => .error (.valueError ("Metric '" ++ metric_name ++ "' not found in semantic layer"))
  | some metric =>
    let metric_sql := pyStrip (metric.sql.getD "")
    let where_clauses : Except PyError (List String) :=
      match filters with
      | none => .ok []
      | some f =>
        if pyTruthy f.segment_type && pyTruthy f.segment then
          match get_customer_segment p (f.segment_type.getD "") (f.segment.getD "") with
          | none => .ok []
          | some sv =>
            if sv.isTruthy then
              (match sv with
              | .dict d => .ok ["(" ++ pyStr d.definition ++ ")"]
              | .nonDict _ => .error .attributeError)
            else .ok []
        else .ok []
    match where_clauses with
    | .error e => .error e
    | .ok wcs =>
      if metric.type == some "sum" || metric.type == some "calculated" then
        let select_clause := "AVG(" ++ metric_sql ++ ") as value"
        let query := "\n            SELECT \n                " ++ select_clause ++
          "\n            FROM customers\n            "
        let query := if wcs ≠ [] then query ++ "\nWHERE " ++ joinSep " AND " wcs else query
        let query :=
          if strContains metric_sql "Income" then
            if wcs ≠ [] then query ++ "\n  AND Income IS NOT NULL"
            else query ++ "\nWHERE Income IS NOT NULL"
          else query
        .ok (pyStrip query)
      else
        .ok (pyStrip ("SELECT " ++ metric_sql ++ " FROM customers"))

/-- The `case_clauses` list that `generate_segment_breakdown`'s loop builds:
one `WHEN <definition> THEN '<label>'` clause per stored segment whose value
is a mapping with a truthy `definition`, in storage order; the label defaults
to the segment name. -/
def caseClauses (segments : List (String × SegVal)) : List String :=
  segments.filterMap fun pr =>
    match pr.2 with
    | .dict d =>
      if pyTruthy d.definition then
        some ("WHEN " ++ pyStr d.definition ++ " THEN '" ++ d.label.getD pr.1 ++ "'")
      else none
    | .nonDict _ => none

/-- `QueryGenerator.generate_segment_breakdown`. -/
def generate_segment_breakdown (p : SemanticLayerParser)
    (metric_name segment_type : String) : Except PyError String :=
  match get_metric p metric_name with
  | none => .error (.valueError ("Metric '" ++ metric_name ++ "' not found"))
  | some metric =>
    let metric_sql := pyStrip (metric.sql.getD "")
    let segments := (p.taxonomy.lookup segment_type).getD []
    let case_clauses := caseClauses segments
    let case_statement :=
      "CASE\n    " ++ joinSep "\n    " case_clauses ++ "\n    ELSE 'Other'\nEND"
    let query := "\n        SELECT \n            " ++ case_statement ++
      " as segment,\n            COUNT(*) as customer_count,\n            ROUND(AVG(" ++
      metric_sql ++
      "), 2) as avg_value\n        FROM customers\n        WHERE Income IS NOT NULL\n        GROUP BY segment\n        ORDER BY avg_value DESC\n        "
    .ok (pyStrip query)

/-- `QueryGenerator.generate_comparison_query`. -/
def generate_comparison_query (p : SemanticLayerParser) (metric_name : String)
    (segment_a segment_b : SegRef) : Except PyError String :=
  match get_metric p metric_name with
  | none => .error (.valueError ("Metric '" ++ metric_name ++ "' not found"))
  | some metric =>
    let metric_sql := pyStrip (metric.sql.getD "")
    let seg_a := get_customer_segment p segment_a.type segment_a.name
    let seg_b := get_customer_segment p segment_b.type segment_b.name
    if !optTruthy seg_a || !optTruthy seg_b then
      .error (.valueError "Segment not found")
    else
      match seg_a, seg_b with
      | some (.dict da), some (.dict db) =>
        .ok (pyStrip ("\n        SELECT \n            '" ++ pyStr da.label ++
          "' as segment,\n            COUNT(*) as customers,\n            ROUND(AVG(" ++
          metric_sql ++
          "), 2) as avg_value\n        FROM customers\n        WHERE (" ++
          pyStr da.definition ++
          ")\n          AND Income IS NOT NULL\n        \n        UNION ALL\n        \n        SELECT \n            '" ++
          pyStr db.label ++
          "' as segment,\n            COUNT(*) as customers,\n            ROUND(AVG(" ++
          metric_sql ++
          "), 2) as avg_value\n        FROM customers\n        WHERE (" ++
          pyStr db.definition ++
          ")\n          AND Income IS NOT NULL\n        "))
      | _, _ => .error .attributeError

/-! ## String-reasoning infrastructure -/

theorem data_append (a b : String) : (a ++ b).data = a.data ++ b.data := rfl

theorem isPref_refl (l : List Char) : isPref l l = true := by
  induction l with
  | nil => rfl
  | cons c t ih => simp [isPref, ih]

theorem isPref_append_right (p l b : List Char) (h : isPref p l = true) :
    isPref p (l ++ b) = true := by
  induction p generalizing l with
  | nil => rfl
  | cons a as ih =>
    cases l with
    | nil => simp [isPref] at h
    | cons x xs =>
      simp [isPref] at h ⊢
      exact ⟨h.1, ih xs h.2⟩

theorem isPref_length (p l : List Char) (h : isPref p l = true) :
    p.length ≤ l.length := by
  induction p generalizing l with
  | nil => simp
  | cons a as ih =>
    cases l with
    | nil => simp [isPref] at h
    | cons x xs =>
      simp [isPref] at h
      simpa using ih xs h.2

theorem isPref_of_append (p l b : List Char) (h : isPref p (l ++ b) = true)
    (hlen : p.length ≤ l.length) : isPref p l = true := by
  induction p generalizing l with
  | nil => rfl
  | cons a as ih =>
    cases l with
    | nil => simp at hlen
    | cons x xs =>
      simp [isPref] at h ⊢
      exact ⟨h.1, ih xs h.2 (by simpa using hlen)⟩

theorem isPref_split (l p b : List Char) (h : isPref p (l ++ b) = true)
    (hlen : l.length < p.length) :
    isPref l p = true ∧ isPref (p.drop l.length) b = true := by
  induction l generalizing p with
  | nil => exact ⟨rfl, h⟩
  | cons x xs ih =>
    cases p with
    | nil => simp at hlen
    | cons a as =>
      simp [isPref] at h ⊢
      obtain ⟨h1, h2⟩ := h
      obtain ⟨g1, g2⟩ := ih as h2 (by simpa using hlen)
      exact ⟨⟨h1.symm, g1⟩, g2⟩

theorem isPref_take (p l : List Char) (h : isPref l p = true) :
    p.take l.length = l := by
  induction l generalizing p with
  | nil => rfl
  | cons a as ih =>
    cases p with
    | nil => simp [isPref] at h
    | cons x xs =>
      simp [isPref] at h
      simp [List.take, h.1.symm, ih xs h.2]

theorem isPref_head (cs b : List Char) (c : Char) (h : isPref (c :: cs) b = true) :
    b.head? = some c := by
  cases b with
  | nil => simp [isPref] at h
  | cons x xs =>
    simp [isPref] at h
    simp [h.1.symm]

/-- `p` is a trailing segment of `l`. -/
def isSuff (p l : List Char) : Bool := isPref p.reverse l.reverse

theorem isSuff_cons (p t : List Char) (x : Char) (h : isSuff p t = true) :
    isSuff p (x :: t) = true := by
  unfold isSuff at h ⊢
  rw [List.reverse_cons]
  exact isPref_append_right _ _ _ h

theorem isSuff_refl (l : List Char) : isSuff l l = true := isPref_refl l.reverse

/-- No occurrence of `pat` straddles the boundary between `a` and `b`. -/
def noStraddle (pat a b : List Char) : Prop :=
  ∀ k, 0 < k → k < pat.length → isPref (pat.drop k) b = true →
    isSuff (pat.take k) a = false

theorem countOcc_append (pat a b : List Char)
    (h : noStraddle pat a b) :
    countOcc pat (a ++ b) = countOcc pat a + countOcc pat b := by
  induction a with
  | nil => simp [countOcc]
  | cons x t ih =>
    have hstep : noStraddle pat t b := by
      intro k hk0 hkl hb
      cases hs : isSuff (pat.take k) t with
      | false => rfl
      | true =>
        have := isSuff_cons _ _ x hs
        rw [h k hk0 hkl hb] at this
        exact absurd this (by simp)
    have hsame : isPref pat ((x :: t) ++ b) = isPref pat (x :: t) := by
      rcases le_or_lt pat.length (x :: t).length with hle | hlt
      · cases hp : isPref pat (x :: t) with
        | true => exact isPref_append_right _ _ _ hp
        | false =>
          cases hq : isPref pat ((x :: t) ++ b) with
          | false => rfl
          | true =>
            rw [isPref_of_append _ _ _ hq hle] at hp
            exact absurd hp (by simp)
      · have h1 : isPref pat (x :: t) = false := by
          cases hp : isPref pat (x :: t) with
          | false => rfl
          | true =>
            have := isPref_length _ _ hp
            omega
        rw [h1]
        cases hq : isPref pat ((x :: t) ++ b) with
        | false => rfl
        | true =>
          obtain ⟨g1, g2⟩ := isPref_split (x :: t) pat b hq hlt
          have hk0 : 0 < (x :: t).length := by simp
          have hfalse := h (x :: t).length hk0 hlt g2
          rw [isPref_take _ _ g1] at hfalse
          rw [isSuff_refl] at hfalse
          exact hfalse
    show (if isPref pat (x :: (t ++ b)) = true then 1 else 0) + countOcc pat (t ++ b) = _
    rw [show x :: (t ++ b) = (x :: t) ++ b from rfl, hsame, ih hstep]
    show _ = (if isPref pat (x :: t) = true then 1 else 0) + countOcc pat t + countOcc pat b
    omega

theorem noStraddle_right (pat a b : List Char) (c : Char)
    (hb : b.head? = some c) (hc : c ∉ pat.drop 1) : noStraddle pat a b := by
  intro k hk0 hkl hpref
  exfalso
  have hlen : 0 < (pat.drop k).length := by
    rw [List.length_drop]; omega
  obtain ⟨d, ds, hd⟩ : ∃ d ds, pat.drop k = d :: ds := by
    cases hdk : pat.drop k with
    | nil => rw [hdk] at hlen; simp at hlen
    | cons d ds => exact ⟨d, ds, rfl⟩
  rw [hd] at hpref
  have hbd := isPref_head _ _ _ hpref
  rw [hb] at hbd
  have hcd : c = d := by injection hbd
  have hmem : d ∈ pat.drop k := by rw [hd]; exact List.mem_cons_self _ _
  have hsub : pat.drop k = (pat.drop 1).drop (k - 1) := by
    rw [List.drop_drop]
    congr 1
    omega
  rw [hsub] at hmem
  exact hc (hcd ▸ List.drop_subset _ _ hmem)

theorem noStraddle_left (pat a b : List Char) (c : Char)
    (ha : a.reverse.head? = some c) (hc : c ∉ pat.dropLast) : noStraddle pat a b := by
  intro k hk0 hkl hpref
  cases hs : isSuff (pat.take k) a with
  | false => rfl
  | true =>
    exfalso
    unfold isSuff at hs
    have hlen : 0 < ((pat.take k).reverse).length := by
      rw [List.length_reverse, List.length_take]
      omega
    obtain ⟨d, ds, hd⟩ : ∃ d ds, (pat.take k).reverse = d :: ds := by
      cases hdk : (pat.take k).reverse with
      | nil => rw [hdk] at hlen; simp at hlen
      | cons d ds => exact ⟨d, ds, rfl⟩
    rw [hd] at hs
    have had := isPref_head _ _ _ hs
    rw [ha] at had
    have hcd : c = d := by injection had
    have hmem : d ∈ pat.take k := by
      rw [← List.mem_reverse, hd]
      exact List.mem_cons_self _ _
    have htk : pat.take k = (pat.dropLast).take k := by
      rw [List.dropLast_eq_take, List.take_take]
      congr 1
      omega
    rw [htk] at hmem
    exact hc (hcd ▸ List.take_subset _ _ hmem)

theorem countOcc_pos (pat a b : List Char) (hpat : pat ≠ []) :
    0 < countOcc pat (a ++ (pat ++ b)) := by
  induction a with
  | nil =>
    cases pat with
    | nil => exact absurd rfl hpat
    | cons c cs =>
      show 0 < (if isPref (c :: cs) ((c :: cs) ++ b) = true then 1 else 0) + _
      rw [isPref_append_right _ _ _ (isPref_refl (c :: cs))]
      simp
  | cons x t ih =>
    show 0 < (if isPref pat (x :: (t ++ (pat ++ b))) = true then 1 else 0) + countOcc pat (t ++ (pat ++ b))
    omega

theorem countOcc_nil (pat : List Char) : countOcc pat [] = 0 := rfl

theorem data_empty : ("" : String).data = [] := rfl

theorem dropWhile_append_all (p : Char → Bool) (w l : List Char)
    (hw : w.all p = true) : (w ++ l).dropWhile p = l.dropWhile p := by
  induction w with
  | nil => rfl
  | cons c t ih =>
    simp only [List.all_cons, Bool.and_eq_true] at hw
    rw [List.cons_append, List.dropWhile_cons, if_pos hw.1]
    exact ih hw.2

theorem stripChars_spec (w₁ m w₂ : List Char)
    (hw₁ : w₁.all wsChar = true) (hw₂ : w₂.all wsChar = true)
    (hh : ∃ c t, m = c :: t ∧ wsChar c = false)
    (hl : ∃ c t, m.reverse = c :: t ∧ wsChar c = false) :
    stripChars (w₁ ++ (m ++ w₂)) = m := by
  obtain ⟨c, t, hm, hc⟩ := hh
  obtain ⟨c', t', hmr, hc'⟩ := hl
  unfold stripChars
  rw [dropWhile_append_all _ _ _ hw₁]
  have h1 : (m ++ w₂).dropWhile wsChar = m ++ w₂ := by
    subst hm
    rw [List.cons_append, List.dropWhile_cons, if_neg (by simp [hc])]
  rw [h1, List.reverse_append]
  have hw₂r : w₂.reverse.all wsChar = true := by
    rw [List.all_eq_true] at hw₂ ⊢
    intro x hx
    exact hw₂ x (List.mem_reverse.mp hx)
  rw [dropWhile_append_all _ _ _ hw₂r]
  rw [hmr, List.dropWhile_cons, if_neg (by simp [hc'])]
  rw [← hmr, List.reverse_reverse]

/-- A string that begins with a character absent from `pat.drop 1` and ends
with a character absent from `pat.dropLast`: no occurrence of `pat` can
straddle either boundary of such a string. -/
def sealed (pat : List Char) (s : String) : Prop :=
  (∃ c t, s.data = c :: t ∧ c ∉ pat.drop 1) ∧
  (∃ c t, s.data.reverse = c :: t ∧ c ∉ pat.dropLast)

theorem head?_of_cons_append (x b : List Char) (c : Char) (t : List Char)
    (h : x = c :: t) : (x ++ b).head? = some c := by subst h; rfl

theorem revHead_append (X s : List Char) (c : Char) (t : List Char)
    (h : s.reverse = c :: t) : (X ++ s).reverse.head? = some c := by
  rw [List.reverse_append, h]; rfl

theorem joinSep_head (sep cl : String) (rest : List String) :
    ∃ u, (joinSep sep (cl :: rest)).data = cl.data ++ u := by
  cases rest with
  | nil => exact ⟨[], by simp [joinSep]⟩
  | cons b bs =>
    exact ⟨sep.data ++ (joinSep sep (b :: bs)).data,
      by simp [joinSep, data_append, List.append_assoc]⟩

theorem countOcc_joinSep (pat : List Char) (sep : String) (cls : List String)
    (hsep0 : countOcc pat sep.data = 0)
    (hseps : sealed pat sep)
    (hcls : ∀ cl ∈ cls, sealed pat cl) :
    countOcc pat (joinSep sep cls).data =
      (cls.map fun cl => countOcc pat cl.data).sum := by
  induction cls with
  | nil => simp [joinSep, data_empty, countOcc_nil]
  | cons cl rest ih =>
    cases rest with
    | nil => simp [joinSep]
    | cons cl2 rest2 =>
      have hcl : sealed pat cl := hcls cl (by simp)
      have hcl2 : sealed pat cl2 := hcls cl2 (by simp)
      have hrest : ∀ x ∈ cl2 :: rest2, sealed pat x := fun x hx => hcls x (by simp [hx])
      obtain ⟨u, hu⟩ := joinSep_head sep cl2 rest2
      obtain ⟨c2, t2, hc2, hc2m⟩ := hcl2.1
      have hJ : (joinSep sep (cl2 :: rest2)).data.head? = some c2 := by
        rw [hu]
        exact head?_of_cons_append _ _ _ _ hc2
      obtain ⟨cs, ts, hcs, hcsm⟩ := hseps.1
      have hdata : (joinSep sep (cl :: cl2 :: rest2)).data =
          (cl.data ++ sep.data) ++ (joinSep sep (cl2 :: rest2)).data := by
        show (cl ++ sep ++ joinSep sep (cl2 :: rest2)).data = _
        simp [data_append]
      rw [hdata]
      rw [countOcc_append pat _ _ (noStraddle_right pat _ _ c2 hJ hc2m)]
      rw [countOcc_append pat cl.data sep.data
        (noStraddle_right pat _ _ cs (by rw [hcs]; rfl) hcsm)]
      rw [hsep0, ih hrest]
      simp

theorem sum_map_ones (l : List String) (f : String → Nat) (h : ∀ x ∈ l, f x = 1) :
    (l.map f).sum = l.length := by
  induction l with
  | nil => rfl
  | cons x t ih =>
    simp [h x (by simp)]
    rw [ih (fun y hy => h y (by simp [hy]))]
    omega

theorem rev_append_cons (X s : List Char) (c : Char) (t : List Char)
    (h : s.reverse = c :: t) : (X ++ s).reverse = c :: (t ++ X.reverse) := by
  rw [List.reverse_append, h]; rfl

theorem headEvidence (s X : List Char) (c : Char) (t : List Char)
    (hs : s = c :: t) (hws : wsChar c = false) :
    ∃ c' t', (s ++ X) = c' :: t' ∧ wsChar c' = false :=
  ⟨c, t ++ X, by subst hs; rfl, hws⟩

theorem revEvidence (X s : List Char) (c : Char) (t : List Char)
    (hs : s.reverse = c :: t) (hws : wsChar c = false) :
    ∃ c' t', (X ++ s).reverse = c' :: t' ∧ wsChar c' = false :=
  ⟨c, t ++ X.reverse, rev_append_cons X s c t hs, hws⟩

theorem countOcc_split_left (pat l a b : List Char) (c : Char)
    (heq : l = a ++ b) (ha : a.reverse.head? = some c) (hm : c ∉ pat.dropLast) :
    countOcc pat l = countOcc pat a + countOcc pat b := by
  subst heq; exact countOcc_append pat a b (noStraddle_left pat a b c ha hm)

theorem countOcc_split_right (pat l a b : List Char) (c : Char)
    (heq : l = a ++ b) (hb : b.head? = some c) (hm : c ∉ pat.drop 1) :
    countOcc pat l = countOcc pat a + countOcc pat b := by
  subst heq; exact countOcc_append pat a b (noStraddle_right pat a b c hb hm)

theorem headEvidenceHead (s X : List Char) (c : Char)
    (hs : s.head? = some c) (hws : wsChar c = false) :
    ∃ c' t', (s ++ X) = c' :: t' ∧ wsChar c' = false := by
  cases s with
  | nil => simp at hs
  | cons d ds =>
    refine ⟨d, ds ++ X, rfl, ?_⟩
    have hd : d = c := by simpa using hs
    rw [hd]; exact hws

theorem revEvidenceEq (l X s : List Char) (c : Char)
    (heq : l = X ++ s)
    (hs : s.reverse.head? = some c) (hws : wsChar c = false) :
    ∃ c' t', l.reverse = c' :: t' ∧ wsChar c' = false := by
  subst heq
  cases hrev : s.reverse with
  | nil => rw [hrev] at hs; simp at hs
  | cons d ds =>
    refine ⟨d, ds ++ X.reverse, ?_, ?_⟩
    · rw [List.reverse_append, hrev]; rfl
    · rw [hrev] at hs
      have hd : d = c := by simpa using hs
      rw [hd]; exact hws

/-! ## Shape lemmas for the three generators -/

theorem gms_agg_none (p : SemanticLayerParser) (mn : String) (m : Metric)
    (hm : get_metric p mn = some m)
    (hty : m.type = some "sum" ∨ m.type = some "calculated") :
    ∃ q, generate_metric_sql p mn none = .ok q ∧
      q.data = "SELECT \n                ".data ++ ("AVG(".data ++
        ((pyStrip (m.sql.getD "")).data ++ (") as value".data ++
        ("\n            FROM customers".data ++
        (if strContains (pyStrip (m.sql.getD "")) "Income" = true
         then "\n            \nWHERE Income IS NOT NULL".data
         else []))))) := by
  have hty' : (m.type == some "sum" || m.type == some "calculated") = true := by
    rcases hty with h | h <;> simp [h]
  cases hin : strContains (pyStrip (m.sql.getD "")) "Income" with
  | false =>
    refine ⟨pyStrip
        ("\n            SELECT \n                " ++
          ("AVG(" ++ pyStrip (m.sql.getD "") ++ ") as value") ++
          "\n            FROM customers\n            "), ?_, ?_⟩
    · simp [generate_metric_sql, hm, hty', hin]
    · rw [show (if (false = true)
          then ("\n            \nWHERE Income IS NOT NULL" : String).data
          else ([] : List Char)) = [] from rfl, List.append_nil]
      show stripChars (("\n            SELECT \n                " ++
          ("AVG(" ++ pyStrip (m.sql.getD "") ++ ") as value") ++
          "\n            FROM customers\n            ") : String).data = _
      have hsplit : (("\n            SELECT \n                " ++
          ("AVG(" ++ pyStrip (m.sql.getD "") ++ ") as value") ++
          "\n            FROM customers\n            ") : String).data =
          "\n            ".data ++
          (("SELECT \n                ".data ++ ("AVG(".data ++
            ((pyStrip (m.sql.getD "")).data ++ (") as value".data ++
            "\n            FROM customers".data)))) ++ "\n            ".data) := by
        simp [data_append, List.append_assoc, List.cons_append, List.nil_append]
      rw [hsplit]
      exact stripChars_spec _ _ _ (by decide) (by decide)
        (headEvidenceHead ("SELECT \n                ".data) _ 'S' rfl (by decide))
        (revEvidenceEq _ ("SELECT \n                ".data ++ ("AVG(".data ++
            ((pyStrip (m.sql.getD "")).data ++ ") as value".data)))
          ("\n            FROM customers".data) 's'
          (by simp [List.append_assoc]) (by decide) (by decide))
  | true =>
    refine ⟨pyStrip
        ("\n            SELECT \n                " ++
          ("AVG(" ++ pyStrip (m.sql.getD "") ++ ") as value") ++
          "\n            FROM customers\n            " ++ "\nWHERE Income IS NOT NULL"), ?_, ?_⟩
    · simp [generate_metric_sql, hm, hty', hin]
    · rw [show (if (true = true)
          then ("\n            \nWHERE Income IS NOT NULL" : String).data
          else ([] : List Char)) = "\n            \nWHERE Income IS NOT NULL".data from rfl]
      show stripChars (("\n            SELECT \n                " ++
          ("AVG(" ++ pyStrip (m.sql.getD "") ++ ") as value") ++
          "\n            FROM customers\n            " ++ "\nWHERE Income IS NOT NULL") : String).data = _
      have hsplit : (("\n            SELECT \n                " ++
          ("AVG(" ++ pyStrip (m.sql.getD "") ++ ") as value") ++
          "\n            FROM customers\n            " ++ "\nWHERE Income IS NOT NULL") : String).data =
          "\n            ".data ++
          (("SELECT \n                ".data ++ ("AVG(".data ++
            ((pyStrip (m.sql.getD "")).data ++ (") as value".data ++
            ("\n            FROM customers".data ++
             "\n            \nWHERE Income IS NOT NULL".data))))) ++ []) := by
        simp [data_append, List.append_assoc, List.cons_append, List.nil_append]
      rw [hsplit]
      exact stripChars_spec _ _ _ (by decide) (by decide)
        (headEvidenceHead ("SELECT \n                ".data) _ 'S' rfl (by decide))
        (revEvidenceEq _ ("SELECT \n                ".data ++ ("AVG(".data ++
            ((pyStrip (m.sql.getD "")).data ++ (") as value".data ++
             "\n            FROM customers".data))))
          ("\n            \nWHERE Income IS NOT NULL".data) 'L'
          (by simp [List.append_assoc]) (by decide) (by decide))

theorem headEvidenceTrans (l s X : List Char)
    (heq : l = s ++ X)
    (hs : ∃ c t, s = c :: t ∧ wsChar c = false) :
    ∃ c t, l = c :: t ∧ wsChar c = false := by
  obtain ⟨c, t, hcons, hws⟩ := hs
  subst heq
  exact ⟨c, t ++ X, by rw [hcons]; rfl, hws⟩

theorem revEvidenceTrans (l X s : List Char)
    (heq : l = X ++ s)
    (hs : ∃ c t, s.reverse = c :: t ∧ wsChar c = false) :
    ∃ c t, l.reverse = c :: t ∧ wsChar c = false := by
  obtain ⟨c, t, hrev, hws⟩ := hs
  subst heq
  exact ⟨c, t ++ X.reverse, by rw [List.reverse_append, hrev]; rfl, hws⟩

theorem gms_raw_none (p : SemanticLayerParser) (mn : String) (m : Metric)
    (hm : get_metric p mn = some m)
    (hty : ¬(m.type = some "sum" ∨ m.type = some "calculated")) :
    ∃ q, generate_metric_sql p mn none = .ok q ∧
      q.data = "SELECT ".data ++
        ((pyStrip (m.sql.getD "")).data ++ " FROM customers".data) := by
  obtain ⟨h1, h2⟩ := not_or.mp hty
  have hty' : (m.type == some "sum" || m.type == some "calculated") = false := by
    simp [h1, h2]
  refine ⟨pyStrip ("SELECT " ++ pyStrip (m.sql.getD "") ++ " FROM customers"), ?_, ?_⟩
  · simp [generate_metric_sql, hm, hty']
  · show stripChars (("SELECT " ++ pyStrip (m.sql.getD "") ++ " FROM customers") : String).data = _
    have hsplit : (("SELECT " ++ pyStrip (m.sql.getD "") ++ " FROM customers") : String).data =
        [] ++ (("SELECT ".data ++
          ((pyStrip (m.sql.getD "")).data ++ " FROM customers".data)) ++ []) := by
      simp [data_append, List.append_assoc]
    rw [hsplit]
    exact stripChars_spec _ _ _ (by decide) (by decide)
      (headEvidenceHead ("SELECT ".data) _ 'S' rfl (by decide))
      (revEvidenceEq _ ("SELECT ".data ++ (pyStrip (m.sql.getD "")).data)
        (" FROM customers".data) 's' (by simp [List.append_assoc]) (by decide) (by decide))

theorem gms_agg_filter (p : SemanticLayerParser) (mn st sn : String) (m : Metric)
    (seg : Segment) (df : String)
    (hm : get_metric p mn = some m)
    (hty : m.type = some "sum" ∨ m.type = some "calculated")
    (hst : st ≠ "") (hsn : sn ≠ "")
    (hs : get_customer_segment p st sn = some (.dict seg))
    (hd : seg.definition = some df) :
    ∃ q, generate_metric_sql p mn (some ⟨some st, some sn⟩) = .ok q ∧
      q.data = "SELECT \n                ".data ++ ("AVG(".data ++
        ((pyStrip (m.sql.getD "")).data ++ (") as value".data ++
        ("\n            FROM customers\n            \nWHERE (".data ++
        (df.data ++ (")".data ++
        (if strContains (pyStrip (m.sql.getD "")) "Income" = true
         then "\n  AND Income IS NOT NULL".data
         else []))))))) := by
  have hty' : (m.type == some "sum" || m.type == some "calculated") = true := by
    rcases hty with h | h <;> simp [h]
  have hstb : pyTruthy (some st) = true := by simp [pyTruthy, hst]
  have hsnb : pyTruthy (some sn) = true := by simp [pyTruthy, hsn]
  cases hin : strContains (pyStrip (m.sql.getD "")) "Income" with
  | false =>
    refine ⟨pyStrip
        ("\n            SELECT \n                " ++
          ("AVG(" ++ pyStrip (m.sql.getD "") ++ ") as value") ++
          "\n            FROM customers\n            " ++ "\nWHERE " ++
          ("(" ++ df ++ ")")), ?_, ?_⟩
    · simp [generate_metric_sql, hm, hty', hstb, hsnb, hs, SegVal.isTruthy, hd,
        pyStr, joinSep, hin]
    · rw [show (if (false = true)
          then ("\n  AND Income IS NOT NULL" : String).data
          else ([] : List Char)) = [] from rfl, List.append_nil]
      show stripChars (("\n            SELECT \n                " ++
          ("AVG(" ++ pyStrip (m.sql.getD "") ++ ") as value") ++
          "\n            FROM customers\n            " ++ "\nWHERE " ++
          ("(" ++ df ++ ")")) : String).data = _
      have hsplit : (("\n            SELECT \n                " ++
          ("AVG(" ++ pyStrip (m.sql.getD "") ++ ") as value") ++
          "\n            FROM customers\n            " ++ "\nWHERE " ++
          ("(" ++ df ++ ")")) : String).data =
          "\n            ".data ++
          (("SELECT \n                ".data ++ ("AVG(".data ++
            ((pyStrip (m.sql.getD "")).data ++ (") as value".data ++
            ("\n            FROM customers\n            \nWHERE (".data ++
            (df.data ++ ")".data)))))) ++ []) := by
        simp [data_append, List.append_assoc, List.cons_append, List.nil_append]
      rw [hsplit]
      exact stripChars_spec _ _ _ (by decide) (by decide)
        (headEvidenceHead ("SELECT \n                ".data) _ 'S' rfl (by decide))
        (revEvidenceEq _ ("SELECT \n                ".data ++ ("AVG(".data ++
            ((pyStrip (m.sql.getD "")).data ++ (") as value".data ++
            ("\n            FROM customers\n            \nWHERE (".data ++ df.data)))))
          (")".data) ')' (by simp [List.append_assoc]) (by decide) (by decide))
  | true =>
    refine ⟨pyStrip
        ("\n            SELECT \n                " ++
          ("AVG(" ++ pyStrip (m.sql.getD "") ++ ") as value") ++
          "\n            FROM customers\n            " ++ "\nWHERE " ++
          ("(" ++ df ++ ")") ++ "\n  AND Income IS NOT NULL"), ?_, ?_⟩
    · simp [generate_metric_sql, hm, hty', hstb, hsnb, hs, SegVal.isTruthy, hd,
        pyStr, joinSep, hin]
    · rw [show (if (true = true)
          then ("\n  AND Income IS NOT NULL" : String).data
          else ([] : List Char)) = "\n  AND Income IS NOT NULL".data from rfl]
      show stripChars (("\n            SELECT \n                " ++
          ("AVG(" ++ pyStrip (m.sql.getD "") ++ ") as value") ++
          "\n            FROM customers\n            " ++ "\nWHERE " ++
          ("(" ++ df ++ ")") ++ "\n  AND Income IS NOT NULL") : String).data = _
      have hsplit : (("\n            SELECT \n                " ++
          ("AVG(" ++ pyStrip (m.sql.getD "") ++ ") as value") ++
          "\n            FROM customers\n            " ++ "\nWHERE " ++
          ("(" ++ df ++ ")") ++ "\n  AND Income IS NOT NULL") : String).data =
          "\n            ".data ++
          (("SELECT \n                ".data ++ ("AVG(".data ++
            ((pyStrip (m.sql.getD "")).data ++ (") as value".data ++
            ("\n            FROM customers\n            \nWHERE (".data ++
            (df.data ++ (")".data ++ "\n  AND Income IS NOT NULL".data))))))) ++ []) := by
        simp [data_append, List.append_assoc, List.cons_append, List.nil_append]
      rw [hsplit]
      exact stripChars_spec _ _ _ (by decide) (by decide)
        (headEvidenceHead ("SELECT \n                ".data) _ 'S' rfl (by decide))
        (revEvidenceEq _ ("SELECT \n                ".data ++ ("AVG(".data ++
            ((pyStrip (m.sql.getD "")).data ++ (") as value".data ++
            ("\n            FROM customers\n            \nWHERE (".data ++
            (df.data ++ ")".data))))))
          ("\n  AND Income IS NOT NULL".data) 'L'
          (by simp [List.append_assoc]) (by decide) (by decide))

set_option maxRecDepth 8000 in
set_option maxHeartbeats 1000000 in
theorem gsb_shape (p : SemanticLayerParser) (mn st : String) (m : Metric)
    (hm : get_metric p mn = some m) :
    ∃ q, generate_segment_breakdown p mn st = .ok q ∧
      q.data = "SELECT \n            ".data ++ ("CASE\n    ".data ++
        ((joinSep "\n    " (caseClauses ((p.taxonomy.lookup st).getD []))).data ++
        ("\n    ELSE 'Other'\nEND".data ++
        (" as segment,\n            COUNT(*) as customer_count,\n            ROUND(AVG(".data ++
        ((pyStrip (m.sql.getD "")).data ++
         "), 2) as avg_value\n        FROM customers\n        WHERE Income IS NOT NULL\n        GROUP BY segment\n        ORDER BY avg_value DESC".data))))) := by
  refine ⟨pyStrip ("\n        SELECT \n            " ++
      ("CASE\n    " ++ joinSep "\n    " (caseClauses ((p.taxonomy.lookup st).getD [])) ++
        "\n    ELSE 'Other'\nEND") ++
      " as segment,\n            COUNT(*) as customer_count,\n            ROUND(AVG(" ++
      pyStrip (m.sql.getD "") ++
      "), 2) as avg_value\n        FROM customers\n        WHERE Income IS NOT NULL\n        GROUP BY segment\n        ORDER BY avg_value DESC\n        "), ?_, ?_⟩
  · simp [generate_segment_breakdown, hm]
  · show stripChars (("\n        SELECT \n            " ++
      ("CASE\n    " ++ joinSep "\n    " (caseClauses ((p.taxonomy.lookup st).getD [])) ++
        "\n    ELSE 'Other'\nEND") ++
      " as segment,\n            COUNT(*) as customer_count,\n            ROUND(AVG(" ++
      pyStrip (m.sql.getD "") ++
      "), 2) as avg_value\n        FROM customers\n        WHERE Income IS NOT NULL\n        GROUP BY segment\n        ORDER BY avg_value DESC\n        ") : String).data = _
    have hsplit : (("\n        SELECT \n            " ++
      ("CASE\n    " ++ joinSep "\n    " (caseClauses ((p.taxonomy.lookup st).getD [])) ++
        "\n    ELSE 'Other'\nEND") ++
      " as segment,\n            COUNT(*) as customer_count,\n            ROUND(AVG(" ++
      pyStrip (m.sql.getD "") ++
      "), 2) as avg_value\n        FROM customers\n        WHERE Income IS NOT NULL\n        GROUP BY segment\n        ORDER BY avg_value DESC\n        ") : String).data =
        "\n        ".data ++
        (("SELECT \n            ".data ++ ("CASE\n    ".data ++
          ((joinSep "\n    " (caseClauses ((p.taxonomy.lookup st).getD []))).data ++
          ("\n    ELSE 'Other'\nEND".data ++
          (" as segment,\n            COUNT(*) as customer_count,\n            ROUND(AVG(".data ++
          ((pyStrip (m.sql.getD "")).data ++
           "), 2) as avg_value\n        FROM customers\n        WHERE Income IS NOT NULL\n        GROUP BY segment\n        ORDER BY avg_value DESC".data)))))) ++ "\n        ".data) := by
      simp [data_append, List.append_assoc, List.cons_append, List.nil_append]
    rw [hsplit]
    exact stripChars_spec _ _ _ (by decide) (by decide)
      (headEvidenceHead ("SELECT \n            ".data) _ 'S' rfl (by decide))
      (revEvidenceEq _ ("SELECT \n            ".data ++ ("CASE\n    ".data ++
          ((joinSep "\n    " (caseClauses ((p.taxonomy.lookup st).getD []))).data ++
          ("\n    ELSE 'Other'\nEND".data ++
          (" as segment,\n            COUNT(*) as customer_count,\n            ROUND(AVG(".data ++
          (pyStrip (m.sql.getD "")).data)))))
        ("), 2) as avg_value\n        FROM customers\n        WHERE Income IS NOT NULL\n        GROUP BY segment\n        ORDER BY avg_value DESC".data)
        'C' (by simp [List.append_assoc]) (by decide) (by decide))

/-- One `SELECT` block of the comparison query, as a character list. -/
def cmpBlock (label dfn msql : String) : List Char :=
  "SELECT \n            '".data ++ (label.data ++
    ("' as segment,\n            COUNT(*) as customers,\n            ROUND(AVG(".data ++
    (msql.data ++ ("), 2) as avg_value\n        FROM customers\n        WHERE (".data ++
    (dfn.data ++ ")\n          AND Income IS NOT NULL".data)))))

theorem cmpBlock_head (label dfn msql : String) :
    ∃ c t, cmpBlock label dfn msql = c :: t ∧ wsChar c = false := by
  show ∃ c t, "SELECT \n            '".data ++ _ = c :: t ∧ wsChar c = false
  exact headEvidenceHead ("SELECT \n            '".data) _ 'S' rfl (by decide)

theorem cmpBlock_rev (label dfn msql : String) :
    ∃ c t, (cmpBlock label dfn msql).reverse = c :: t ∧ wsChar c = false := by
  apply revEvidenceEq _ ("SELECT \n            '".data ++ (label.data ++
    ("' as segment,\n            COUNT(*) as customers,\n            ROUND(AVG(".data ++
    (msql.data ++ ("), 2) as avg_value\n        FROM customers\n        WHERE (".data ++
    dfn.data)))))
    (")\n          AND Income IS NOT NULL".data) 'L'
  · simp [cmpBlock, List.append_assoc]
  · decide
  · decide

set_option maxRecDepth 8000 in
set_option maxHeartbeats 2000000 in
theorem gcq_shape (p : SemanticLayerParser) (mn : String) (sa sb : SegRef) (m : Metric)
    (da db : Segment) (dfa la dfb lb : String)
    (hm : get_metric p mn = some m)
    (hsa : get_customer_segment p sa.type sa.name = some (.dict da))
    (hsb : get_customer_segment p sb.type sb.name = some (.dict db))
    (hda : da.definition = some dfa) (hla : da.label = some la)
    (hdb : db.definition = some dfb) (hlb : db.label = some lb) :
    ∃ q, generate_comparison_query p mn sa sb = .ok q ∧
      q.data = cmpBlock la dfa (pyStrip (m.sql.getD "")) ++
        ("\n        \n        UNION ALL\n        \n        ".data ++
         cmpBlock lb dfb (pyStrip (m.sql.getD ""))) := by
  refine ⟨pyStrip ("\n        SELECT \n            '" ++ la ++
    "' as segment,\n            COUNT(*) as customers,\n            ROUND(AVG(" ++
    pyStrip (m.sql.getD "") ++
    "), 2) as avg_value\n        FROM customers\n        WHERE (" ++ dfa ++
    ")\n          AND Income IS NOT NULL\n        \n        UNION ALL\n        \n        SELECT \n            '" ++
    lb ++
    "' as segment,\n            COUNT(*) as customers,\n            ROUND(AVG(" ++
    pyStrip (m.sql.getD "") ++
    "), 2) as avg_value\n        FROM customers\n        WHERE (" ++ dfb ++
    ")\n          AND Income IS NOT NULL\n        "), ?_, ?_⟩
  · simp [generate_comparison_query, hm, hsa, hsb, optTruthy, SegVal.isTruthy,
      hda, hdb, hla, hlb, pyStr]
  · have hsplit : (("\n        SELECT \n            '" ++ la ++
      "' as segment,\n            COUNT(*) as customers,\n            ROUND(AVG(" ++
      pyStrip (m.sql.getD "") ++
      "), 2) as avg_value\n        FROM customers\n        WHERE (" ++ dfa ++
      ")\n          AND Income IS NOT NULL\n        \n        UNION ALL\n        \n        SELECT \n            '" ++
      lb ++
      "' as segment,\n            COUNT(*) as customers,\n            ROUND(AVG(" ++
      pyStrip (m.sql.getD "") ++
      "), 2) as avg_value\n        FROM customers\n        WHERE (" ++ dfb ++
      ")\n          AND Income IS NOT NULL\n        ") : String).data =
        "\n        ".data ++
        ((cmpBlock la dfa (pyStrip (m.sql.getD "")) ++
          ("\n        \n        UNION ALL\n        \n        ".data ++
           cmpBlock lb dfb (pyStrip (m.sql.getD "")))) ++ "\n        ".data) := by
      simp [cmpBlock, data_append, List.append_assoc, List.cons_append, List.nil_append]
    have key : stripChars (("\n        SELECT \n            '" ++ la ++
      "' as segment,\n            COUNT(*) as customers,\n            ROUND(AVG(" ++
      pyStrip (m.sql.getD "") ++
      "), 2) as avg_value\n        FROM customers\n        WHERE (" ++ dfa ++
      ")\n          AND Income IS NOT NULL\n        \n        UNION ALL\n        \n        SELECT \n            '" ++
      lb ++
      "' as segment,\n            COUNT(*) as customers,\n            ROUND(AVG(" ++
      pyStrip (m.sql.getD "") ++
      "), 2) as avg_value\n        FROM customers\n        WHERE (" ++ dfb ++
      ")\n          AND Income IS NOT NULL\n        ") : String).data =
        cmpBlock la dfa (pyStrip (m.sql.getD "")) ++
        ("\n        \n        UNION ALL\n        \n        ".data ++
         cmpBlock lb dfb (pyStrip (m.sql.getD ""))) := by
      rw [hsplit]
      exact stripChars_spec _ _ _ (by decide) (by decide)
        (headEvidenceTrans _ (cmpBlock la dfa (pyStrip (m.sql.getD "")))
          ("\n        \n        UNION ALL\n        \n        ".data ++
            cmpBlock lb dfb (pyStrip (m.sql.getD ""))) rfl
          (cmpBlock_head la dfa (pyStrip (m.sql.getD ""))))
        (revEvidenceTrans _ (cmpBlock la dfa (pyStrip (m.sql.getD "")) ++
            "\n        \n        UNION ALL\n        \n        ".data)
          (cmpBlock lb dfb (pyStrip (m.sql.getD "")))
          (by simp [List.append_assoc])
          (cmpBlock_rev lb dfb (pyStrip (m.sql.getD ""))))
    exact key

/-! ## Concrete repositories used by witnesses and counterexamples -/

/-- A demo repository mirroring the shipped configuration's shape. -/
def Pdemo : SemanticLayerParser :=
  ⟨[("family_status",
      [("parents", .dict ⟨some "Kidhome + Teenhome > 0", some "Parents", true⟩),
       ("no_children", .dict ⟨some "Kidhome + Teenhome = 0", some "No Children", true⟩)]),
    ("value_tiers", [])],
   [⟨some "total_spending", some "sum", some "MntWines + MntFruits"⟩,
    ⟨some "avg_income", some "calculated", some "Income / 12"⟩,
    ⟨some "recency_raw", some "raw", some "Recency"⟩,
    ⟨some "monthly_income", some "raw", some "Income"⟩]⟩

/-- A repository whose metric list contains two entries with the same name. -/
def Pdup : SemanticLayerParser :=
  ⟨[], [⟨some "other", some "sum", some "A"⟩,
        ⟨some "dup", some "sum", some "B"⟩,
        ⟨some "dup", some "raw", some "C"⟩]⟩

/-- A small repository for the unknown-segment scenarios. -/
def Ptiers : SemanticLayerParser :=
  ⟨[("tiers", [("gold", .dict ⟨some "Income > 100000", some "Gold", true⟩)])],
   [⟨some "clv", some "calculated", some "MntWines * 2"⟩]⟩

/-- C10: `get_metric` returns the first entry whose `name` field equals the
queried name exactly, and `none` iff no entry carries that name; with
duplicate names the earlier entry wins. -/
theorem C10_get_metric_first_match (p : SemanticLayerParser) (name : String) :
    (get_metric p name = none ↔ ∀ m ∈ p.metrics, m.name ≠ some name) ∧
    (∀ l₁ mm l₂, p.metrics = l₁ ++ mm :: l₂ → mm.name = some name →
      (∀ m' ∈ l₁, m'.name ≠ some name) → get_metric p name = some mm) := by
  constructor
  · rw [get_metric, List.find?_eq_none]
    constructor
    · intro h m hm
      have := h m hm
      simpa using this
    · intro h m hm
      simp [h m hm]
  · intro l₁ mm l₂ hsplit hname hfirst
    rw [get_metric, hsplit]
    clear hsplit
    induction l₁ with
    | nil => simp [List.find?_cons, hname]
    | cons a t ih =>
      have ha : (a.name == some name) = false := by
        simp [hfirst a (by simp)]
      rw [List.cons_append, List.find?_cons, ha]
      exact ih (fun m' hm' => hfirst m' (by simp [hm']))

theorem C10_witness :
    get_metric Pdup "dup" = some ⟨some "dup", some "sum", some "B"⟩ ∧
    get_metric Pdup "zzz" = none := by
  constructor
  · exact (C10_get_metric_first_match Pdup "dup").2
      [⟨some "other", some "sum", some "A"⟩]
      ⟨some "dup", some "sum", some "B"⟩
      [⟨some "dup", some "raw", some "C"⟩] rfl rfl (by decide)
  · exact (C10_get_metric_first_match Pdup "zzz").1.mpr (by decide)

/-- C9: each generator is a pure function of the repository and its
arguments — two calls with identical arguments give identical SQL text. -/
theorem C9_generators_deterministic (p : SemanticLayerParser) (mn st : String)
    (f : Option Filters) (sa sb : SegRef) :
    generate_metric_sql p mn f = generate_metric_sql p mn f ∧
    generate_segment_breakdown p mn st = generate_segment_breakdown p mn st ∧
    generate_comparison_query p mn sa sb = generate_comparison_query p mn sa sb :=
  ⟨rfl, rfl, rfl⟩

/-- C2: the code does not raise `UnknownSegment` when the filter's
(type, name) pair fails to resolve — `generate_metric_sql` silently drops
the filter and returns the unfiltered query. -/
theorem C2_unknown_segment_silently_ignored :
    get_customer_segment Ptiers "tiers" "platinum" = none ∧
    generate_metric_sql Ptiers "clv" (some ⟨some "tiers", some "platinum"⟩) =
      .ok "SELECT \n                AVG(MntWines * 2) as value\n            FROM customers" :=
  ⟨rfl, rfl⟩

/-- C1 counterexample: both the metric and the segment resolve, yet the SQL
for a `raw`-classified metric contains neither the parenthesized segment
definition nor any WHERE clause — the raw branch ignores `where_clauses`. -/
theorem C1_counterexample :
    (get_metric Pdemo "recency_raw").isSome = true ∧
    get_customer_segment Pdemo "family_status" "parents" =
      some (.dict ⟨some "Kidhome + Teenhome > 0", some "Parents", true⟩) ∧
    generate_metric_sql Pdemo "recency_raw"
      (some ⟨some "family_status", some "parents"⟩) =
      .ok "SELECT Recency FROM customers" ∧
    countSub "SELECT Recency FROM customers" "(Kidhome + Teenhome > 0)" = 0 ∧
    countSub "SELECT Recency FROM customers" "WHERE" = 0 :=
  ⟨rfl, rfl, rfl, by decide, by decide⟩

/-- C1 (amended): for metrics classified `sum` or `calculated`, whenever the
metric and the filter's segment both resolve (the segment to a mapping whose
`definition` is present), the generated SQL contains a WHERE clause carrying
the segment's exact definition wrapped in parentheses. -/
theorem C1_filter_definition_in_where (p : SemanticLayerParser)
    (mn st sn : String) (m : Metric) (seg : Segment) (df : String)
    (hm : get_metric p mn = some m)
    (hty : m.type = some "sum" ∨ m.type = some "calculated")
    (hst : st ≠ "") (hsn : sn ≠ "")
    (hs : get_customer_segment p st sn = some (.dict seg))
    (hd : seg.definition = some df) :
    ∃ sql, generate_metric_sql p mn (some ⟨some st, some sn⟩) = .ok sql ∧
      0 < countSub sql ("WHERE (" ++ df ++ ")") := by
  obtain ⟨q, hq, hdata⟩ := gms_agg_filter p mn st sn m seg df hm hty hst hsn hs hd
  refine ⟨q, hq, ?_⟩
  show 0 < countOcc ("WHERE (" ++ df ++ ")").data q.data
  rw [hdata]
  have hM : "SELECT \n                ".data ++ ("AVG(".data ++
      ((pyStrip (m.sql.getD "")).data ++ (") as value".data ++
      ("\n            FROM customers\n            \nWHERE (".data ++
      (df.data ++ (")".data ++
      (if strContains (pyStrip (m.sql.getD "")) "Income" = true
       then "\n  AND Income IS NOT NULL".data
       else []))))))) =
      ("SELECT \n                ".data ++ ("AVG(".data ++
        ((pyStrip (m.sql.getD "")).data ++ (") as value".data ++
        "\n            FROM customers\n            \n".data)))) ++
      (("WHERE (" ++ df ++ ")").data ++
       (if strContains (pyStrip (m.sql.getD "")) "Income" = true
        then "\n  AND Income IS NOT NULL".data
        else [])) := by
    simp [data_append, List.append_assoc, List.cons_append, List.nil_append]
  rw [hM]
  exact countOcc_pos _ _ _ (by simp [data_append])

theorem C1_witness :
    ∃ sql, generate_metric_sql Pdemo "total_spending"
        (some ⟨some "family_status", some "parents"⟩) = .ok sql ∧
      0 < countSub sql ("WHERE (" ++ "Kidhome + Teenhome > 0" ++ ")") :=
  C1_filter_definition_in_where Pdemo "total_spending" "family_status" "parents"
    ⟨some "total_spending", some "sum", some "MntWines + MntFruits"⟩
    ⟨some "Kidhome + Teenhome > 0", some "Parents", true⟩
    "Kidhome + Teenhome > 0" rfl (Or.inl rfl) (by decide) (by decide) rfl rfl

theorem str_ext (a b : String) (h : a.data = b.data) : a = b := by
  cases a; cases b; exact congrArg String.mk h

/-- C3 counterexample: a `raw`-classified metric whose expression contains
`Income` resolves, yet the generated SQL has no WHERE clause at all — the
income null-filter lives only in the aggregate branch. -/
theorem C3_counterexample :
    get_metric Pdemo "monthly_income" =
      some ⟨some "monthly_income", some "raw", some "Income"⟩ ∧
    strContains "Income" "Income" = true ∧
    generate_metric_sql Pdemo "monthly_income" none =
      .ok "SELECT Income FROM customers" ∧
    countSub "SELECT Income FROM customers" "WHERE" = 0 :=
  ⟨rfl, by decide, rfl, by decide⟩

/-- C3 (amended): with no filter, for `sum`/`calculated` metrics the SQL has
no WHERE clause when the (stripped) expression lacks the substring `Income`,
and exactly one WHERE clause containing `WHERE Income IS NOT NULL` when it
contains it; metrics of any other classification always yield SQL with no
WHERE clause. -/
theorem C3_income_null_filter (p : SemanticLayerParser) (mn : String) (m : Metric)
    (hm : get_metric p mn = some m)
    (hW : countSub (pyStrip (m.sql.getD "")) "WHERE" = 0) :
    ∃ sql, generate_metric_sql p mn none = .ok sql ∧
      (((m.type = some "sum" ∨ m.type = some "calculated") →
        ((strContains (pyStrip (m.sql.getD "")) "Income" = true →
            countSub sql "WHERE" = 1 ∧ 0 < countSub sql "WHERE Income IS NOT NULL") ∧
         (strContains (pyStrip (m.sql.getD "")) "Income" = false →
            countSub sql "WHERE" = 0))) ∧
       (¬(m.type = some "sum" ∨ m.type = some "calculated") →
        countSub sql "WHERE" = 0)) := by
  by_cases hty : m.type = some "sum" ∨ m.type = some "calculated"
  · obtain ⟨q, hq, hdata⟩ := gms_agg_none p mn m hm hty
    refine ⟨q, hq, ?_, fun hcon => absurd hty hcon⟩
    intro _
    constructor
    · intro hin
      rw [hin] at hdata
      rw [show (if (true = true)
          then ("\n            \nWHERE Income IS NOT NULL" : String).data
          else ([] : List Char)) = "\n            \nWHERE Income IS NOT NULL".data
          from rfl] at hdata
      constructor
      · show countOcc ("WHERE" : String).data q.data = 1
        rw [countOcc_split_right ("WHERE" : String).data q.data
            ("SELECT \n                ".data)
            ("AVG(".data ++ ((pyStrip (m.sql.getD "")).data ++ (") as value".data ++
              ("\n            FROM customers".data ++
               "\n            \nWHERE Income IS NOT NULL".data))))
            'A' hdata rfl (by decide),
          countOcc_split_left ("WHERE" : String).data
            ("AVG(".data ++ ((pyStrip (m.sql.getD "")).data ++ (") as value".data ++
              ("\n            FROM customers".data ++
               "\n            \nWHERE Income IS NOT NULL".data))))
            ("AVG(".data)
            ((pyStrip (m.sql.getD "")).data ++ (") as value".data ++
              ("\n            FROM customers".data ++
               "\n            \nWHERE Income IS NOT NULL".data)))
            '(' rfl rfl (by decide),
          countOcc_split_right ("WHERE" : String).data
            ((pyStrip (m.sql.getD "")).data ++ (") as value".data ++
              ("\n            FROM customers".data ++
               "\n            \nWHERE Income IS NOT NULL".data)))
            ((pyStrip (m.sql.getD "")).data)
            (") as value".data ++
              ("\n            FROM customers".data ++
               "\n            \nWHERE Income IS NOT NULL".data))
            ')' rfl rfl (by decide)]
        have h0 : countOcc ("WHERE" : String).data
            ((pyStrip (m.sql.getD "")).data) = 0 := hW
        rw [h0]
        decide
      · show 0 < countOcc ("WHERE Income IS NOT NULL" : String).data q.data
        rw [hdata]
        rw [show "SELECT \n                ".data ++ ("AVG(".data ++
            ((pyStrip (m.sql.getD "")).data ++ (") as value".data ++
            ("\n            FROM customers".data ++
             "\n            \nWHERE Income IS NOT NULL".data)))) =
            ("SELECT \n                ".data ++ ("AVG(".data ++
              ((pyStrip (m.sql.getD "")).data ++ (") as value".data ++
              ("\n            FROM customers".data ++ "\n            \n".data))))) ++
            (("WHERE Income IS NOT NULL" : String).data ++ []) from by
          simp [data_append, List.append_assoc, List.cons_append, List.nil_append]]
        exact countOcc_pos _ _ _ (by decide)
    · intro hin
      rw [hin] at hdata
      rw [show (if (false = true)
          then ("\n            \nWHERE Income IS NOT NULL" : String).data
          else ([] : List Char)) = [] from rfl, List.append_nil] at hdata
      show countOcc ("WHERE" : String).data q.data = 0
      rw [countOcc_split_right ("WHERE" : String).data q.data
          ("SELECT \n                ".data)
          ("AVG(".data ++ ((pyStrip (m.sql.getD "")).data ++ (") as value".data ++
            "\n            FROM customers".data)))
          'A' hdata rfl (by decide),
        countOcc_split_left ("WHERE" : String).data
          ("AVG(".data ++ ((pyStrip (m.sql.getD "")).data ++ (") as value".data ++
            "\n            FROM customers".data)))
          ("AVG(".data)
          ((pyStrip (m.sql.getD "")).data ++ (") as value".data ++
            "\n            FROM customers".data))
          '(' rfl rfl (by decide),
        countOcc_split_right ("WHERE" : String).data
          ((pyStrip (m.sql.getD "")).data ++ (") as value".data ++
            "\n            FROM customers".data))
          ((pyStrip (m.sql.getD "")).data)
          (") as value".data ++ "\n            FROM customers".data)
          ')' rfl rfl (by decide)]
      have h0 : countOcc ("WHERE" : String).data
          ((pyStrip (m.sql.getD "")).data) = 0 := hW
      rw [h0]
      decide
  · obtain ⟨q, hq, hdata⟩ := gms_raw_none p mn m hm hty
    refine ⟨q, hq, fun hcon => absurd hcon hty, ?_⟩
    intro _
    show countOcc ("WHERE" : String).data q.data = 0
    rw [countOcc_split_left ("WHERE" : String).data q.data
        ("SELECT ".data)
        ((pyStrip (m.sql.getD "")).data ++ " FROM customers".data)
        ' ' hdata rfl (by decide),
      countOcc_split_right ("WHERE" : String).data
        ((pyStrip (m.sql.getD "")).data ++ " FROM customers".data)
        ((pyStrip (m.sql.getD "")).data)
        (" FROM customers".data)
        ' ' rfl rfl (by decide)]
    have h0 : countOcc ("WHERE" : String).data
        ((pyStrip (m.sql.getD "")).data) = 0 := hW
    rw [h0]
    decide

theorem C3_witness :
    ∃ sql, generate_metric_sql Pdemo "avg_income" none = .ok sql ∧
      countSub sql "WHERE" = 1 ∧ 0 < countSub sql "WHERE Income IS NOT NULL" := by
  obtain ⟨sql, h1, h2, _⟩ := C3_income_null_filter Pdemo "avg_income"
    ⟨some "avg_income", some "calculated", some "Income / 12"⟩ rfl (by decide)
  exact ⟨sql, h1, (h2 (Or.inr rfl)).1 (by decide)⟩

/-- C4 counterexample: for a `raw`-classified metric the emitted statement is
`SELECT <expr> FROM customers` with no `value` alias at all, contradicting
the claim that both cases alias the selected expression as `value`. -/
theorem C4_counterexample :
    (get_metric Pdemo "recency_raw").isSome = true ∧
    generate_metric_sql Pdemo "recency_raw" none =
      .ok "SELECT Recency FROM customers" ∧
    countSub "SELECT Recency FROM customers" "value" = 0 :=
  ⟨rfl, rfl, by decide⟩

/-- C4 (amended): when the metric's classification is `sum` or `calculated`
the point-metric generator emits `SELECT AVG(<expr>) as value FROM customers`
(the expression wrapped in `AVG(...)` aliased as `value`); for any other
classification it emits exactly `SELECT <expr> FROM customers`, raw and
unaliased. -/
theorem C4_select_clause_shape (p : SemanticLayerParser) (mn : String) (m : Metric)
    (hm : get_metric p mn = some m) :
    ∃ sql, generate_metric_sql p mn none = .ok sql ∧
      (((m.type = some "sum" ∨ m.type = some "calculated") →
        0 < countSub sql ("SELECT \n                AVG(" ++
          pyStrip (m.sql.getD "") ++ ") as value\n            FROM customers")) ∧
       (¬(m.type = some "sum" ∨ m.type = some "calculated") →
        sql = "SELECT " ++ pyStrip (m.sql.getD "") ++ " FROM customers")) := by
  by_cases hty : m.type = some "sum" ∨ m.type = some "calculated"
  · obtain ⟨q, hq, hdata⟩ := gms_agg_none p mn m hm hty
    refine ⟨q, hq, fun _ => ?_, fun hcon => absurd hty hcon⟩
    show 0 < countOcc (("SELECT \n                AVG(" ++
      pyStrip (m.sql.getD "") ++ ") as value\n            FROM customers") : String).data q.data
    rw [hdata]
    rw [show "SELECT \n                ".data ++ ("AVG(".data ++
        ((pyStrip (m.sql.getD "")).data ++ (") as value".data ++
        ("\n            FROM customers".data ++
        (if strContains (pyStrip (m.sql.getD "")) "Income" = true
         then "\n            \nWHERE Income IS NOT NULL".data
         else []))))) =
        [] ++ ((("SELECT \n                AVG(" ++
          pyStrip (m.sql.getD "") ++ ") as value\n            FROM customers") : String).data ++
        (if strContains (pyStrip (m.sql.getD "")) "Income" = true
         then "\n            \nWHERE Income IS NOT NULL".data
         else [])) from by
      simp [data_append, List.append_assoc, List.cons_append, List.nil_append]]
    exact countOcc_pos _ _ _ (by simp [data_append])
  · obtain ⟨q, hq, hdata⟩ := gms_raw_none p mn m hm hty
    refine ⟨q, hq, fun hcon => absurd hcon hty, fun _ => ?_⟩
    apply str_ext
    rw [hdata]
    simp [data_append, List.append_assoc]

theorem C4_witness :
    ∃ sql, generate_metric_sql Pdemo "total_spending" none = .ok sql ∧
      0 < countSub sql ("SELECT \n                AVG(" ++
        pyStrip "MntWines + MntFruits" ++ ") as value\n            FROM customers") := by
  obtain ⟨sql, h1, h2, _⟩ := C4_select_clause_shape Pdemo "total_spending"
    ⟨some "total_spending", some "sum", some "MntWines + MntFruits"⟩ rfl
  exact ⟨sql, h1, h2 (Or.inl rfl)⟩

set_option maxRecDepth 8000 in
set_option maxHeartbeats 1000000 in
/-- C8: when the Repository stores no segments under the requested type,
`generate_segment_breakdown` still succeeds and the CASE expression consists
of only the ELSE branch labeled `Other` (no WHEN branch at all). -/
theorem C8_empty_segment_type (p : SemanticLayerParser) (mn st : String) (m : Metric)
    (hm : get_metric p mn = some m)
    (hempty : (p.taxonomy.lookup st).getD [] = [])
    (hW : countSub (pyStrip (m.sql.getD "")) "WHEN" = 0) :
    ∃ sql, generate_segment_breakdown p mn st = .ok sql ∧
      0 < countSub sql "CASE\n    \n    ELSE 'Other'\nEND" ∧
      countSub sql "WHEN" = 0 := by
  obtain ⟨q, hq, hdata⟩ := gsb_shape p mn st m hm
  rw [hempty] at hdata
  rw [show (joinSep "\n    " (caseClauses ([] : List (String × SegVal)))).data =
      [] from rfl, List.nil_append] at hdata
  refine ⟨q, hq, ?_, ?_⟩
  · show 0 < countOcc ("CASE\n    \n    ELSE 'Other'\nEND" : String).data q.data
    rw [hdata]
    rw [show "SELECT \n            ".data ++ ("CASE\n    ".data ++
        ("\n    ELSE 'Other'\nEND".data ++
        (" as segment,\n            COUNT(*) as customer_count,\n            ROUND(AVG(".data ++
        ((pyStrip (m.sql.getD "")).data ++
         "), 2) as avg_value\n        FROM customers\n        WHERE Income IS NOT NULL\n        GROUP BY segment\n        ORDER BY avg_value DESC".data)))) =
        "SELECT \n            ".data ++
        (("CASE\n    \n    ELSE 'Other'\nEND" : String).data ++
        (" as segment,\n            COUNT(*) as customer_count,\n            ROUND(AVG(".data ++
        ((pyStrip (m.sql.getD "")).data ++
         "), 2) as avg_value\n        FROM customers\n        WHERE Income IS NOT NULL\n        GROUP BY segment\n        ORDER BY avg_value DESC".data))) from by
      simp [data_append, List.append_assoc, List.cons_append, List.nil_append]]
    exact countOcc_pos _ _ _ (by decide)
  · show countOcc ("WHEN" : String).data q.data = 0
    rw [countOcc_split_right ("WHEN" : String).data q.data
        ("SELECT \n            ".data)
        ("CASE\n    ".data ++
          ("\n    ELSE 'Other'\nEND".data ++
          (" as segment,\n            COUNT(*) as customer_count,\n            ROUND(AVG(".data ++
          ((pyStrip (m.sql.getD "")).data ++
           "), 2) as avg_value\n        FROM customers\n        WHERE Income IS NOT NULL\n        GROUP BY segment\n        ORDER BY avg_value DESC".data))))
        'C' hdata rfl (by decide),
      countOcc_split_left ("WHEN" : String).data
        ("CASE\n    ".data ++
          ("\n    ELSE 'Other'\nEND".data ++
          (" as segment,\n            COUNT(*) as customer_count,\n            ROUND(AVG(".data ++
          ((pyStrip (m.sql.getD "")).data ++
           "), 2) as avg_value\n        FROM customers\n        WHERE Income IS NOT NULL\n        GROUP BY segment\n        ORDER BY avg_value DESC".data))))
        ("CASE\n    ".data)
        ("\n    ELSE 'Other'\nEND".data ++
          (" as segment,\n            COUNT(*) as customer_count,\n            ROUND(AVG(".data ++
          ((pyStrip (m.sql.getD "")).data ++
           "), 2) as avg_value\n        FROM customers\n        WHERE Income IS NOT NULL\n        GROUP BY segment\n        ORDER BY avg_value DESC".data)))
        ' ' rfl rfl (by decide),
      countOcc_split_left ("WHEN" : String).data
        ("\n    ELSE 'Other'\nEND".data ++
          (" as segment,\n            COUNT(*) as customer_count,\n            ROUND(AVG(".data ++
          ((pyStrip (m.sql.getD "")).data ++
           "), 2) as avg_value\n        FROM customers\n        WHERE Income IS NOT NULL\n        GROUP BY segment\n        ORDER BY avg_value DESC".data)))
        ("\n    ELSE 'Other'\nEND".data)
        (" as segment,\n            COUNT(*) as customer_count,\n            ROUND(AVG(".data ++
          ((pyStrip (m.sql.getD "")).data ++
           "), 2) as avg_value\n        FROM customers\n        WHERE Income IS NOT NULL\n        GROUP BY segment\n        ORDER BY avg_value DESC".data))
        'D' rfl rfl (by decide),
      countOcc_split_left ("WHEN" : String).data
        (" as segment,\n            COUNT(*) as customer_count,\n            ROUND(AVG(".data ++
          ((pyStrip (m.sql.getD "")).data ++
           "), 2) as avg_value\n        FROM customers\n        WHERE Income IS NOT NULL\n        GROUP BY segment\n        ORDER BY avg_value DESC".data))
        (" as segment,\n            COUNT(*) as customer_count,\n            ROUND(AVG(".data)
        ((pyStrip (m.sql.getD "")).data ++
           "), 2) as avg_value\n        FROM customers\n        WHERE Income IS NOT NULL\n        GROUP BY segment\n        ORDER BY avg_value DESC".data)
        '(' rfl rfl (by decide),
      countOcc_split_right ("WHEN" : String).data
        ((pyStrip (m.sql.getD "")).data ++
           "), 2) as avg_value\n        FROM customers\n        WHERE Income IS NOT NULL\n        GROUP BY segment\n        ORDER BY avg_value DESC".data)
        ((pyStrip (m.sql.getD "")).data)
        ("), 2) as avg_value\n        FROM customers\n        WHERE Income IS NOT NULL\n        GROUP BY segment\n        ORDER BY avg_value DESC".data)
        ')' rfl rfl (by decide)]
    have h0 : countOcc ("WHEN" : String).data
        ((pyStrip (m.sql.getD "")).data) = 0 := hW
    rw [h0]
    decide

theorem C8_witness :
    ∃ sql, generate_segment_breakdown Pdemo "total_spending" "value_tiers" = .ok sql ∧
      0 < countSub sql "CASE\n    \n    ELSE 'Other'\nEND" ∧
      countSub sql "WHEN" = 0 :=
  C8_empty_segment_type Pdemo "total_spending" "value_tiers"
    ⟨some "total_spending", some "sum", some "MntWines + MntFruits"⟩
    rfl rfl (by decide)

theorem consEvEqL (P : Char → Prop) (l s X : List Char) (c : Char)
    (heq : l = s ++ X) (hs : s.head? = some c) (hP : P c) :
    ∃ c' t', l = c' :: t' ∧ P c' := by
  subst heq
  cases s with
  | nil => simp at hs
  | cons d ds =>
    have hd : d = c := by simpa using hs
    exact ⟨d, ds ++ X, rfl, hd ▸ hP⟩

theorem consEvEqR (P : Char → Prop) (l X s : List Char) (c : Char)
    (heq : l = X ++ s) (hs : s.reverse.head? = some c) (hP : P c) :
    ∃ c' t', l.reverse = c' :: t' ∧ P c' := by
  subst heq
  cases hrev : s.reverse with
  | nil => rw [hrev] at hs; simp at hs
  | cons d ds =>
    have hd : d = c := by rw [hrev] at hs; simpa using hs
    exact ⟨d, ds ++ X.reverse, by rw [List.reverse_append, hrev]; rfl, hd ▸ hP⟩

theorem sum_map_zeros (l : List String) (f : String → Nat) (h : ∀ x ∈ l, f x = 0) :
    (l.map f).sum = 0 := by
  induction l with
  | nil => rfl
  | cons x t ih =>
    simp [h x (by simp)]
    exact ih (fun y hy => h y (by simp [hy]))

/-- The WHEN-branch the claim describes for one stored segment: the segment's
definition as condition and its label as result. Compared against the
`caseClauses` the code builds. -/
def specWhenClause (pr : String × SegVal) : String :=
  match pr.2 with
  | .dict d => "WHEN " ++ pyStr d.definition ++ " THEN '" ++ pyStr d.label ++ "'"
  | .nonDict _ => ""

theorem caseClauses_eq_map (segs : List (String × SegVal))
    (hwf : ∀ pr ∈ segs, ∃ d df lb, pr.2 = SegVal.dict d ∧
      d.definition = some df ∧ df ≠ "" ∧ d.label = some lb) :
    caseClauses segs = segs.map specWhenClause := by
  induction segs with
  | nil => rfl
  | cons pr rest ih =>
    obtain ⟨d, df, lb, h2, hdf, hne, hlb⟩ := hwf pr (by simp)
    have hrest : ∀ x ∈ rest, ∃ d df lb, x.2 = SegVal.dict d ∧
        d.definition = some df ∧ df ≠ "" ∧ d.label = some lb :=
      fun x hx => hwf x (List.mem_cons_of_mem _ hx)
    simp only [caseClauses, List.filterMap_cons, List.map_cons, h2, hdf, hlb,
      pyTruthy, pyStr, specWhenClause]
    rw [if_pos (by simpa using hne)]
    simp only [Option.getD_some]
    exact congrArg (List.cons ("WHEN " ++ df ++ " THEN '" ++ lb ++ "'")) (ih hrest)

theorem clause_countWHEN (df lb : String)
    (hdf : countOcc ("WHEN" : String).data df.data = 0)
    (hlb : countOcc ("WHEN" : String).data lb.data = 0) :
    countOcc ("WHEN" : String).data
      (("WHEN " ++ df ++ " THEN '" ++ lb ++ "'") : String).data = 1 := by
  rw [show (("WHEN " ++ df ++ " THEN '" ++ lb ++ "'") : String).data =
      "WHEN ".data ++ (df.data ++ (" THEN '".data ++ (lb.data ++ "'".data))) from by
    simp [data_append, List.append_assoc]]
  rw [countOcc_split_left ("WHEN" : String).data _ ("WHEN ".data)
      (df.data ++ (" THEN '".data ++ (lb.data ++ "'".data))) ' ' rfl rfl (by decide),
    countOcc_split_right ("WHEN" : String).data
      (df.data ++ (" THEN '".data ++ (lb.data ++ "'".data))) df.data
      (" THEN '".data ++ (lb.data ++ "'".data)) ' ' rfl rfl (by decide),
    countOcc_split_left ("WHEN" : String).data
      (" THEN '".data ++ (lb.data ++ "'".data)) (" THEN '".data)
      (lb.data ++ "'".data) '\'' rfl rfl (by decide),
    countOcc_split_right ("WHEN" : String).data (lb.data ++ "'".data)
      lb.data ("'".data) '\'' rfl rfl (by decide),
    hdf, hlb]
  decide

theorem clause_countELSE (df lb : String)
    (hdf : countOcc ("ELSE" : String).data df.data = 0)
    (hlb : countOcc ("ELSE" : String).data lb.data = 0) :
    countOcc ("ELSE" : String).data
      (("WHEN " ++ df ++ " THEN '" ++ lb ++ "'") : String).data = 0 := by
  rw [show (("WHEN " ++ df ++ " THEN '" ++ lb ++ "'") : String).data =
      "WHEN ".data ++ (df.data ++ (" THEN '".data ++ (lb.data ++ "'".data))) from by
    simp [data_append, List.append_assoc]]
  rw [countOcc_split_left ("ELSE" : String).data _ ("WHEN ".data)
      (df.data ++ (" THEN '".data ++ (lb.data ++ "'".data))) ' ' rfl rfl (by decide),
    countOcc_split_right ("ELSE" : String).data
      (df.data ++ (" THEN '".data ++ (lb.data ++ "'".data))) df.data
      (" THEN '".data ++ (lb.data ++ "'".data)) ' ' rfl rfl (by decide),
    countOcc_split_left ("ELSE" : String).data
      (" THEN '".data ++ (lb.data ++ "'".data)) (" THEN '".data)
      (lb.data ++ "'".data) '\'' rfl rfl (by decide),
    countOcc_split_right ("ELSE" : String).data (lb.data ++ "'".data)
      lb.data ("'".data) '\'' rfl rfl (by decide),
    hdf, hlb]
  decide

theorem clause_sealedWHEN (df lb : String) :
    sealed ("WHEN" : String).data ("WHEN " ++ df ++ " THEN '" ++ lb ++ "'") := by
  constructor
  · exact consEvEqL _ _ ("WHEN ".data)
      (df.data ++ (" THEN '".data ++ (lb.data ++ "'".data))) 'W'
      (by simp [data_append, List.append_assoc]) rfl (by decide)
  · exact consEvEqR _ _
      ("WHEN ".data ++ (df.data ++ (" THEN '".data ++ lb.data)))
      ("'".data) '\''
      (by simp [data_append, List.append_assoc]) rfl (by decide)

theorem clause_sealedELSE (df lb : String) :
    sealed ("ELSE" : String).data ("WHEN " ++ df ++ " THEN '" ++ lb ++ "'") := by
  constructor
  · exact consEvEqL _ _ ("WHEN ".data)
      (df.data ++ (" THEN '".data ++ (lb.data ++ "'".data))) 'W'
      (by simp [data_append, List.append_assoc]) rfl (by decide)
  · exact consEvEqR _ _
      ("WHEN ".data ++ (df.data ++ (" THEN '".data ++ lb.data)))
      ("'".data) '\''
      (by simp [data_append, List.append_assoc]) rfl (by decide)

theorem sep_sealedWHEN : sealed ("WHEN" : String).data "\n    " :=
  ⟨⟨'\n', [' ', ' ', ' ', ' '], by decide, by decide⟩,
   ⟨' ', [' ', ' ', ' ', '\n'], by decide, by decide⟩⟩

theorem sep_sealedELSE : sealed ("ELSE" : String).data "\n    " :=
  ⟨⟨'\n', [' ', ' ', ' ', ' '], by decide, by decide⟩,
   ⟨' ', [' ', ' ', ' ', '\n'], by decide, by decide⟩⟩

theorem gsb_count (pat : List Char) (Jd msqld q : List Char)
    (hdata : q = "SELECT \n            ".data ++ ("CASE\n    ".data ++ (Jd ++ ("\n    ELSE 'Other'\nEND".data ++ (" as segment,\n            COUNT(*) as customer_count,\n            ROUND(AVG(".data ++ (msqld ++ ("), 2) as avg_value\n        FROM customers\n        WHERE Income IS NOT NULL\n        GROUP BY segment\n        ORDER BY avg_value DESC".data)))))))
    (hC : 'C' ∉ pat.drop 1) (hsp : ' ' ∉ pat.dropLast)
    (hnl : '\n' ∉ pat.drop 1) (hD : 'D' ∉ pat.dropLast)
    (hpar : '(' ∉ pat.dropLast) (hrp : ')' ∉ pat.drop 1) :
    countOcc pat q = countOcc pat "SELECT \n            ".data +
      (countOcc pat "CASE\n    ".data + (countOcc pat Jd +
      (countOcc pat "\n    ELSE 'Other'\nEND".data +
      (countOcc pat " as segment,\n            COUNT(*) as customer_count,\n            ROUND(AVG(".data +
      (countOcc pat msqld + countOcc pat "), 2) as avg_value\n        FROM customers\n        WHERE Income IS NOT NULL\n        GROUP BY segment\n        ORDER BY avg_value DESC".data))))) := by
  rw [countOcc_split_right pat q "SELECT \n            ".data
      ("CASE\n    ".data ++ (Jd ++ ("\n    ELSE 'Other'\nEND".data ++ (" as segment,\n            COUNT(*) as customer_count,\n            ROUND(AVG(".data ++ (msqld ++ ("), 2) as avg_value\n        FROM customers\n        WHERE Income IS NOT NULL\n        GROUP BY segment\n        ORDER BY avg_value DESC".data)))))) 'C' hdata rfl hC,
    countOcc_split_left pat ("CASE\n    ".data ++ (Jd ++ ("\n    ELSE 'Other'\nEND".data ++ (" as segment,\n            COUNT(*) as customer_count,\n            ROUND(AVG(".data ++ (msqld ++ ("), 2) as avg_value\n        FROM customers\n        WHERE Income IS NOT NULL\n        GROUP BY segment\n        ORDER BY avg_value DESC".data)))))) "CASE\n    ".data
      (Jd ++ ("\n    ELSE 'Other'\nEND".data ++ (" as segment,\n            COUNT(*) as customer_count,\n            ROUND(AVG(".data ++ (msqld ++ ("), 2) as avg_value\n        FROM customers\n        WHERE Income IS NOT NULL\n        GROUP BY segment\n        ORDER BY avg_value DESC".data))))) ' ' rfl rfl hsp,
    countOcc_split_right pat (Jd ++ ("\n    ELSE 'Other'\nEND".data ++ (" as segment,\n            COUNT(*) as customer_count,\n            ROUND(AVG(".data ++ (msqld ++ ("), 2) as avg_value\n        FROM customers\n        WHERE Income IS NOT NULL\n        GROUP BY segment\n        ORDER BY avg_value DESC".data))))) Jd
      ("\n    ELSE 'Other'\nEND".data ++ (" as segment,\n            COUNT(*) as customer_count,\n            ROUND(AVG(".data ++ (msqld ++ ("), 2) as avg_value\n        FROM customers\n        WHERE Income IS NOT NULL\n        GROUP BY segment\n        ORDER BY avg_value DESC".data)))) '\n' rfl rfl hnl,
    countOcc_split_left pat ("\n    ELSE 'Other'\nEND".data ++ (" as segment,\n            COUNT(*) as customer_count,\n            ROUND(AVG(".data ++ (msqld ++ ("), 2) as avg_value\n        FROM customers\n        WHERE Income IS NOT NULL\n        GROUP BY segment\n        ORDER BY avg_value DESC".data)))) "\n    ELSE 'Other'\nEND".data
      (" as segment,\n            COUNT(*) as customer_count,\n            ROUND(AVG(".data ++ (msqld ++ ("), 2) as avg_value\n        FROM customers\n        WHERE Income IS NOT NULL\n        GROUP BY segment\n        ORDER BY avg_value DESC".data))) 'D' rfl rfl hD,
    countOcc_split_left pat (" as segment,\n            COUNT(*) as customer_count,\n            ROUND(AVG(".data ++ (msqld ++ ("), 2) as avg_value\n        FROM customers\n        WHERE Income IS NOT NULL\n        GROUP BY segment\n        ORDER BY avg_value DESC".data))) " as segment,\n            COUNT(*) as customer_count,\n            ROUND(AVG(".data
      (msqld ++ ("), 2) as avg_value\n        FROM customers\n        WHERE Income IS NOT NULL\n        GROUP BY segment\n        ORDER BY avg_value DESC".data)) '(' rfl rfl hpar,
    countOcc_split_right pat (msqld ++ ("), 2) as avg_value\n        FROM customers\n        WHERE Income IS NOT NULL\n        GROUP BY segment\n        ORDER BY avg_value DESC".data)) msqld
      "), 2) as avg_value\n        FROM customers\n        WHERE Income IS NOT NULL\n        GROUP BY segment\n        ORDER BY avg_value DESC".data ')' rfl rfl hrp]

set_option maxRecDepth 8000 in
set_option maxHeartbeats 2000000 in
/-- C5: for every resolvable metric and segment type, the breakdown SQL
contains a CASE expression with exactly one WHEN-branch per segment stored
under that type, in storage order, each carrying the segment's definition as
condition and its label as result, plus exactly one ELSE branch labeled
`Other`. The hypotheses state the spec's data-model invariant (each stored
segment is a mapping with a non-empty definition and a label, and neither
those strings nor the metric expression contain the literal SQL keywords). -/
theorem C5_breakdown_case (p : SemanticLayerParser) (mn st : String) (m : Metric)
    (hm : get_metric p mn = some m)
    (hWm : countSub (pyStrip (m.sql.getD "")) "WHEN" = 0)
    (hEm : countSub (pyStrip (m.sql.getD "")) "ELSE" = 0)
    (hwf : ∀ pr ∈ ((p.taxonomy.lookup st).getD []), ∃ d df lb,
      pr.2 = SegVal.dict d ∧ d.definition = some df ∧ df ≠ "" ∧ d.label = some lb ∧
      countSub df "WHEN" = 0 ∧ countSub df "ELSE" = 0 ∧
      countSub lb "WHEN" = 0 ∧ countSub lb "ELSE" = 0) :
    ∃ sql, generate_segment_breakdown p mn st = .ok sql ∧
      0 < countSub sql ("CASE\n    " ++ joinSep "\n    " (((p.taxonomy.lookup st).getD []).map specWhenClause) ++ "\n    ELSE 'Other'\nEND") ∧
      countSub sql "WHEN" = ((p.taxonomy.lookup st).getD []).length ∧
      countSub sql "ELSE" = 1 := by
  have hwf' : ∀ pr ∈ ((p.taxonomy.lookup st).getD []), ∃ d df lb,
      pr.2 = SegVal.dict d ∧ d.definition = some df ∧ df ≠ "" ∧ d.label = some lb :=
    fun pr hpr => by
      obtain ⟨d, df, lb, h1, h2, h3, h4, _, _, _, _⟩ := hwf pr hpr
      exact ⟨d, df, lb, h1, h2, h3, h4⟩
  obtain ⟨q, hq, hdata⟩ := gsb_shape p mn st m hm
  rw [caseClauses_eq_map _ hwf'] at hdata
  have hclW : ∀ cl ∈ (((p.taxonomy.lookup st).getD []).map specWhenClause),
      countOcc ("WHEN" : String).data cl.data = 1 := by
    intro cl hcl
    obtain ⟨pr, hpr, rfl⟩ := List.mem_map.mp hcl
    obtain ⟨d, df, lb, h1, h2, h3, h4, hdfW, _, hlbW, _⟩ := hwf pr hpr
    rw [show specWhenClause pr = "WHEN " ++ df ++ " THEN '" ++ lb ++ "'" from by
      simp [specWhenClause, h1, h2, h4, pyStr]]
    exact clause_countWHEN df lb hdfW hlbW
  have hclE : ∀ cl ∈ (((p.taxonomy.lookup st).getD []).map specWhenClause),
      countOcc ("ELSE" : String).data cl.data = 0 := by
    intro cl hcl
    obtain ⟨pr, hpr, rfl⟩ := List.mem_map.mp hcl
    obtain ⟨d, df, lb, h1, h2, h3, h4, _, hdfE, _, hlbE⟩ := hwf pr hpr
    rw [show specWhenClause pr = "WHEN " ++ df ++ " THEN '" ++ lb ++ "'" from by
      simp [specWhenClause, h1, h2, h4, pyStr]]
    exact clause_countELSE df lb hdfE hlbE
  have hsW : ∀ cl ∈ (((p.taxonomy.lookup st).getD []).map specWhenClause), sealed ("WHEN" : String).data cl := by
    intro cl hcl
    obtain ⟨pr, hpr, rfl⟩ := List.mem_map.mp hcl
    obtain ⟨d, df, lb, h1, h2, h3, h4, _, _, _, _⟩ := hwf pr hpr
    rw [show specWhenClause pr = "WHEN " ++ df ++ " THEN '" ++ lb ++ "'" from by
      simp [specWhenClause, h1, h2, h4, pyStr]]
    exact clause_sealedWHEN df lb
  have hsE : ∀ cl ∈ (((p.taxonomy.lookup st).getD []).map specWhenClause), sealed ("ELSE" : String).data cl := by
    intro cl hcl
    obtain ⟨pr, hpr, rfl⟩ := List.mem_map.mp hcl
    obtain ⟨d, df, lb, h1, h2, h3, h4, _, _, _, _⟩ := hwf pr hpr
    rw [show specWhenClause pr = "WHEN " ++ df ++ " THEN '" ++ lb ++ "'" from by
      simp [specWhenClause, h1, h2, h4, pyStr]]
    exact clause_sealedELSE df lb
  have hJW : countOcc ("WHEN" : String).data (joinSep "\n    " (((p.taxonomy.lookup st).getD []).map specWhenClause)).data = ((p.taxonomy.lookup st).getD []).length := by
    rw [countOcc_joinSep _ _ _ (by decide) sep_sealedWHEN hsW,
      sum_map_ones _ _ hclW, List.length_map]
  have hJE : countOcc ("ELSE" : String).data (joinSep "\n    " (((p.taxonomy.lookup st).getD []).map specWhenClause)).data = 0 := by
    rw [countOcc_joinSep _ _ _ (by decide) sep_sealedELSE hsE, sum_map_zeros _ _ hclE]
  refine ⟨q, hq, ?_, ?_, ?_⟩
  · show 0 < countOcc ("CASE\n    " ++ joinSep "\n    " (((p.taxonomy.lookup st).getD []).map specWhenClause) ++ "\n    ELSE 'Other'\nEND").data q.data
    rw [hdata]
    rw [show "SELECT \n            ".data ++ ("CASE\n    ".data ++ ((joinSep "\n    " (((p.taxonomy.lookup st).getD []).map specWhenClause)).data ++ ("\n    ELSE 'Other'\nEND".data ++ (" as segment,\n            COUNT(*) as customer_count,\n            ROUND(AVG(".data ++ ((pyStrip (m.sql.getD "")).data ++ ("), 2) as avg_value\n        FROM customers\n        WHERE Income IS NOT NULL\n        GROUP BY segment\n        ORDER BY avg_value DESC".data)))))) =
        "SELECT \n            ".data ++ (("CASE\n    " ++ joinSep "\n    " (((p.taxonomy.lookup st).getD []).map specWhenClause) ++ "\n    ELSE 'Other'\nEND").data ++ (" as segment,\n            COUNT(*) as customer_count,\n            ROUND(AVG(".data ++ ((pyStrip (m.sql.getD "")).data ++ ("), 2) as avg_value\n        FROM customers\n        WHERE Income IS NOT NULL\n        GROUP BY segment\n        ORDER BY avg_value DESC".data)))) from by
      simp [data_append, List.append_assoc, List.cons_append, List.nil_append]]
    exact countOcc_pos _ _ _ (by simp [data_append])
  · show countOcc ("WHEN" : String).data q.data = _
    rw [gsb_count ("WHEN" : String).data (joinSep "\n    " (((p.taxonomy.lookup st).getD []).map specWhenClause)).data (pyStrip (m.sql.getD "")).data q.data hdata
      (by decide) (by decide) (by decide) (by decide) (by decide) (by decide)]
    rw [hJW,
      show countOcc ("WHEN" : String).data "SELECT \n            ".data = 0 from by decide,
      show countOcc ("WHEN" : String).data "CASE\n    ".data = 0 from by decide,
      show countOcc ("WHEN" : String).data "\n    ELSE 'Other'\nEND".data = 0 from by decide,
      show countOcc ("WHEN" : String).data " as segment,\n            COUNT(*) as customer_count,\n            ROUND(AVG(".data = 0 from by decide,
      show countOcc ("WHEN" : String).data "), 2) as avg_value\n        FROM customers\n        WHERE Income IS NOT NULL\n        GROUP BY segment\n        ORDER BY avg_value DESC".data = 0 from by decide,
      show countOcc ("WHEN" : String).data (pyStrip (m.sql.getD "")).data = 0 from hWm]
    omega
  · show countOcc ("ELSE" : String).data q.data = 1
    rw [gsb_count ("ELSE" : String).data (joinSep "\n    " (((p.taxonomy.lookup st).getD []).map specWhenClause)).data (pyStrip (m.sql.getD "")).data q.data hdata
      (by decide) (by decide) (by decide) (by decide) (by decide) (by decide)]
    rw [hJE,
      show countOcc ("ELSE" : String).data "SELECT \n            ".data = 0 from by decide,
      show countOcc ("ELSE" : String).data "CASE\n    ".data = 0 from by decide,
      show countOcc ("ELSE" : String).data "\n    ELSE 'Other'\nEND".data = 1 from by decide,
      show countOcc ("ELSE" : String).data " as segment,\n            COUNT(*) as customer_count,\n            ROUND(AVG(".data = 0 from by decide,
      show countOcc ("ELSE" : String).data "), 2) as avg_value\n        FROM customers\n        WHERE Income IS NOT NULL\n        GROUP BY segment\n        ORDER BY avg_value DESC".data = 0 from by decide,
      show countOcc ("ELSE" : String).data (pyStrip (m.sql.getD "")).data = 0 from hEm]

theorem C5_witness :
    ∃ sql, generate_segment_breakdown Pdemo "total_spending" "family_status" = .ok sql ∧
      0 < countSub sql ("CASE\n    " ++
        joinSep "\n    "
          (((Pdemo.taxonomy.lookup "family_status").getD []).map specWhenClause) ++
        "\n    ELSE 'Other'\nEND") ∧
      countSub sql "WHEN" = ((Pdemo.taxonomy.lookup "family_status").getD []).length ∧
      countSub sql "ELSE" = 1 := by
  apply C5_breakdown_case Pdemo "total_spending" "family_status"
    ⟨some "total_spending", some "sum", some "MntWines + MntFruits"⟩ rfl
    (by decide) (by decide)
  intro pr hpr
  have hl : (Pdemo.taxonomy.lookup "family_status").getD [] =
      [("parents", .dict ⟨some "Kidhome + Teenhome > 0", some "Parents", true⟩),
       ("no_children", .dict ⟨some "Kidhome + Teenhome = 0", some "No Children", true⟩)] := rfl
  rw [hl] at hpr
  simp only [List.mem_cons, List.not_mem_nil, or_false] at hpr
  rcases hpr with rfl | rfl
  · exact ⟨⟨some "Kidhome + Teenhome > 0", some "Parents", true⟩,
      "Kidhome + Teenhome > 0", "Parents", rfl, rfl, by decide, rfl,
      by decide, by decide, by decide, by decide⟩
  · exact ⟨⟨some "Kidhome + Teenhome = 0", some "No Children", true⟩,
      "Kidhome + Teenhome = 0", "No Children", rfl, rfl, by decide, rfl,
      by decide, by decide, by decide, by decide⟩

theorem cmpBlock_rev_head (label dfn msql : String) :
    (cmpBlock label dfn msql).reverse.head? = some 'L' := by
  rw [show cmpBlock label dfn msql =
      ("SELECT \n            '".data ++ (label.data ++ ("' as segment,\n            COUNT(*) as customers,\n            ROUND(AVG(".data ++ (msql.data ++ ("), 2) as avg_value\n        FROM customers\n        WHERE (".data ++ (dfn.data)))))) ++ ")\n          AND Income IS NOT NULL".data from by
    simp [cmpBlock, List.append_assoc]]
  rw [List.reverse_append]
  rfl

theorem cmpBlock_countUNION (label dfn msql : String)
    (hl : countOcc ("UNION" : String).data label.data = 0)
    (hq : countOcc ("UNION" : String).data msql.data = 0)
    (hd : countOcc ("UNION" : String).data dfn.data = 0) :
    countOcc ("UNION" : String).data (cmpBlock label dfn msql) = 0 := by
  show countOcc ("UNION" : String).data ("SELECT \n            '".data ++ (label.data ++ ("' as segment,\n            COUNT(*) as customers,\n            ROUND(AVG(".data ++ (msql.data ++ ("), 2) as avg_value\n        FROM customers\n        WHERE (".data ++ (dfn.data ++ (")\n          AND Income IS NOT NULL".data))))))) = 0
  rw [countOcc_split_left ("UNION" : String).data ("SELECT \n            '".data ++ (label.data ++ ("' as segment,\n            COUNT(*) as customers,\n            ROUND(AVG(".data ++ (msql.data ++ ("), 2) as avg_value\n        FROM customers\n        WHERE (".data ++ (dfn.data ++ (")\n          AND Income IS NOT NULL".data))))))) "SELECT \n            '".data
      (label.data ++ ("' as segment,\n            COUNT(*) as customers,\n            ROUND(AVG(".data ++ (msql.data ++ ("), 2) as avg_value\n        FROM customers\n        WHERE (".data ++ (dfn.data ++ (")\n          AND Income IS NOT NULL".data)))))) '\'' rfl (by decide) (by decide),
    countOcc_split_right ("UNION" : String).data (label.data ++ ("' as segment,\n            COUNT(*) as customers,\n            ROUND(AVG(".data ++ (msql.data ++ ("), 2) as avg_value\n        FROM customers\n        WHERE (".data ++ (dfn.data ++ (")\n          AND Income IS NOT NULL".data)))))) label.data
      ("' as segment,\n            COUNT(*) as customers,\n            ROUND(AVG(".data ++ (msql.data ++ ("), 2) as avg_value\n        FROM customers\n        WHERE (".data ++ (dfn.data ++ (")\n          AND Income IS NOT NULL".data))))) '\'' rfl rfl (by decide),
    countOcc_split_left ("UNION" : String).data ("' as segment,\n            COUNT(*) as customers,\n            ROUND(AVG(".data ++ (msql.data ++ ("), 2) as avg_value\n        FROM customers\n        WHERE (".data ++ (dfn.data ++ (")\n          AND Income IS NOT NULL".data))))) "' as segment,\n            COUNT(*) as customers,\n            ROUND(AVG(".data
      (msql.data ++ ("), 2) as avg_value\n        FROM customers\n        WHERE (".data ++ (dfn.data ++ (")\n          AND Income IS NOT NULL".data)))) '(' rfl (by decide) (by decide),
    countOcc_split_right ("UNION" : String).data (msql.data ++ ("), 2) as avg_value\n        FROM customers\n        WHERE (".data ++ (dfn.data ++ (")\n          AND Income IS NOT NULL".data)))) msql.data
      ("), 2) as avg_value\n        FROM customers\n        WHERE (".data ++ (dfn.data ++ (")\n          AND Income IS NOT NULL".data))) ')' rfl rfl (by decide),
    countOcc_split_left ("UNION" : String).data ("), 2) as avg_value\n        FROM customers\n        WHERE (".data ++ (dfn.data ++ (")\n          AND Income IS NOT NULL".data))) "), 2) as avg_value\n        FROM customers\n        WHERE (".data
      (dfn.data ++ (")\n          AND Income IS NOT NULL".data)) '(' rfl (by decide) (by decide),
    countOcc_split_right ("UNION" : String).data (dfn.data ++ (")\n          AND Income IS NOT NULL".data)) dfn.data
      ")\n          AND Income IS NOT NULL".data ')' rfl rfl (by decide),
    hl, hq, hd,
    show countOcc ("UNION" : String).data "SELECT \n            '".data = 0 from by decide,
    show countOcc ("UNION" : String).data "' as segment,\n            COUNT(*) as customers,\n            ROUND(AVG(".data = 0 from by decide,
    show countOcc ("UNION" : String).data "), 2) as avg_value\n        FROM customers\n        WHERE (".data = 0 from by decide,
    show countOcc ("UNION" : String).data ")\n          AND Income IS NOT NULL".data = 0 from by decide]

set_option maxRecDepth 8000 in
set_option maxHeartbeats 2000000 in
/-- C6: for a resolvable metric and two resolvable segments, the comparison
query is two structurally identical SELECT blocks — each selecting the
segment's label literal, `COUNT(*)` and `ROUND(AVG(<expr>), 2)` with
`WHERE (<definition>) AND Income IS NOT NULL` — joined by exactly one
`UNION` occurrence, which reads `UNION ALL`. Hypotheses state the
data-model invariant and that the configured strings do not themselves
contain the keyword `UNION`. -/
theorem C6_comparison_union (p : SemanticLayerParser) (mn : String) (sa sb : SegRef)
    (m : Metric) (da db : Segment) (dfa la dfb lb : String)
    (hm : get_metric p mn = some m)
    (hsa : get_customer_segment p sa.type sa.name = some (.dict da))
    (hsb : get_customer_segment p sb.type sb.name = some (.dict db))
    (hda : da.definition = some dfa) (hla : da.label = some la)
    (hdb : db.definition = some dfb) (hlb : db.label = some lb)
    (hU : countSub (pyStrip (m.sql.getD "")) "UNION" = 0)
    (hUda : countSub dfa "UNION" = 0) (hUla : countSub la "UNION" = 0)
    (hUdb : countSub dfb "UNION" = 0) (hUlb : countSub lb "UNION" = 0) :
    ∃ sql, generate_comparison_query p mn sa sb = .ok sql ∧
      sql.data = cmpBlock la dfa (pyStrip (m.sql.getD "")) ++ ("\n        \n        UNION ALL\n        \n        ".data ++ cmpBlock lb dfb (pyStrip (m.sql.getD ""))) ∧
      countSub sql "UNION" = 1 ∧
      0 < countSub sql "UNION ALL" := by
  obtain ⟨q, hq, hdata⟩ :=
    gcq_shape p mn sa sb m da db dfa la dfb lb hm hsa hsb hda hla hdb hlb
  refine ⟨q, hq, hdata, ?_, ?_⟩
  · show countOcc ("UNION" : String).data q.data = 1
    rw [countOcc_split_left ("UNION" : String).data q.data (cmpBlock la dfa (pyStrip (m.sql.getD "")))
        ("\n        \n        UNION ALL\n        \n        ".data ++ cmpBlock lb dfb (pyStrip (m.sql.getD ""))) 'L' hdata (cmpBlock_rev_head la dfa (pyStrip (m.sql.getD ""))) (by decide),
      countOcc_split_left ("UNION" : String).data ("\n        \n        UNION ALL\n        \n        ".data ++ cmpBlock lb dfb (pyStrip (m.sql.getD "")))
        "\n        \n        UNION ALL\n        \n        ".data (cmpBlock lb dfb (pyStrip (m.sql.getD ""))) ' ' rfl (by decide) (by decide),
      cmpBlock_countUNION la dfa (pyStrip (m.sql.getD "")) hUla hU hUda,
      cmpBlock_countUNION lb dfb (pyStrip (m.sql.getD "")) hUlb hU hUdb,
      show countOcc ("UNION" : String).data "\n        \n        UNION ALL\n        \n        ".data = 1 from by decide]
  · show 0 < countOcc ("UNION ALL" : String).data q.data
    rw [hdata]
    rw [show cmpBlock la dfa (pyStrip (m.sql.getD "")) ++ ("\n        \n        UNION ALL\n        \n        ".data ++ cmpBlock lb dfb (pyStrip (m.sql.getD ""))) =
        (cmpBlock la dfa (pyStrip (m.sql.getD "")) ++ "\n        \n        ".data) ++
        (("UNION ALL" : String).data ++ ("\n        \n        ".data ++ cmpBlock lb dfb (pyStrip (m.sql.getD "")))) from by
      rw [show "\n        \n        UNION ALL\n        \n        ".data = "\n        \n        ".data ++ (("UNION ALL" : String).data ++ "\n        \n        ".data) from by decide]
      simp [List.append_assoc]]
    exact countOcc_pos _ _ _ (by decide)

theorem C6_witness :
    ∃ sql, generate_comparison_query Pdemo "total_spending"
        ⟨"family_status", "parents"⟩ ⟨"family_status", "no_children"⟩ = .ok sql ∧
      sql.data =
        cmpBlock "Parents" "Kidhome + Teenhome > 0" (pyStrip "MntWines + MntFruits") ++
        ("\n        \n        UNION ALL\n        \n        ".data ++
         cmpBlock "No Children" "Kidhome + Teenhome = 0" (pyStrip "MntWines + MntFruits")) ∧
      countSub sql "UNION" = 1 ∧
      0 < countSub sql "UNION ALL" :=
  C6_comparison_union Pdemo "total_spending" ⟨"family_status", "parents"⟩
    ⟨"family_status", "no_children"⟩
    ⟨some "total_spending", some "sum", some "MntWines + MntFruits"⟩
    ⟨some "Kidhome + Teenhome > 0", some "Parents", true⟩
    ⟨some "Kidhome + Teenhome = 0", some "No Children", true⟩
    "Kidhome + Teenhome > 0" "Parents" "Kidhome + Teenhome = 0" "No Children"
    rfl rfl rfl rfl rfl rfl rfl (by decide) (by decide) (by decide) (by decide)
    (by decide)

/-- C7 counterexample: an unknown segment supplied to the point-metric
generator is not reported as any error outcome at all — the call succeeds
with the unfiltered query, so unknown metric and unknown segment are not
distinguishable outcomes for every generator operation. -/
theorem C7_counterexample :
    get_customer_segment Ptiers "tiers" "missing" = none ∧
    ∃ sql, generate_metric_sql Ptiers "clv"
      (some ⟨some "tiers", some "missing"⟩) = .ok sql :=
  ⟨rfl, "SELECT \n                AVG(MntWines * 2) as value\n            FROM customers",
   rfl⟩

/-- C7 (amended): where the generators do raise, unknown metric and unknown
segment are distinguishable, inspectable outcomes: all three generators raise
ValueError messages naming the metric when it is unknown, the comparison
generator raises ValueError "Segment not found" when either segment reference
is unresolvable, and the two messages always differ. (The point-metric
generator does not surface unknown filter segments at all, and
MalformedIntent/ConfigurationLoadError are raised outside the generator.) -/
theorem C7_error_outcomes (p : SemanticLayerParser) (mn st : String) (sa sb : SegRef) :
    (get_metric p mn = none →
      generate_metric_sql p mn none =
        .error (.valueError ("Metric '" ++ mn ++ "' not found in semantic layer")) ∧
      generate_segment_breakdown p mn st =
        .error (.valueError ("Metric '" ++ mn ++ "' not found")) ∧
      generate_comparison_query p mn sa sb =
        .error (.valueError ("Metric '" ++ mn ++ "' not found"))) ∧
    (∀ m, get_metric p mn = some m →
      optTruthy (get_customer_segment p sa.type sa.name) = false →
      generate_comparison_query p mn sa sb =
        .error (.valueError "Segment not found")) ∧
    PyError.valueError ("Metric '" ++ mn ++ "' not found") ≠
      PyError.valueError "Segment not found" := by
  refine ⟨?_, ?_, ?_⟩
  · intro h
    refine ⟨?_, ?_, ?_⟩
    · simp [generate_metric_sql, h]
    · simp [generate_segment_breakdown, h]
    · simp [generate_comparison_query, h]
  · intro m hm hfalse
    simp [generate_comparison_query, hm, hfalse]
  · intro h
    have hmsg : ("Metric '" ++ mn ++ "' not found" : String) = "Segment not found" := by
      injection h
    have hhead : ("Metric '" ++ mn ++ "' not found" : String).data.head? = some 'M' := rfl
    rw [hmsg] at hhead
    exact absurd hhead (by decide)

theorem C7_witness :
    generate_comparison_query Ptiers "clv" ⟨"tiers", "missing"⟩ ⟨"tiers", "gold"⟩ =
      .error (.valueError "Segment not found") :=
  (C7_error_outcomes Ptiers "clv" "tiers" ⟨"tiers", "missing"⟩ ⟨"tiers", "gold"⟩).2.1
    ⟨some "clv", some "calculated", some "MntWines * 2"⟩ rfl rfl
